import Mathlib

/-!
# subzero-probe: sampling, buffering and reporting core

A shallow embedding of `subzero-probe/src/main.cpp`.  Global variables become
the fields of `Globals`, every call into the Arduino / ESP8266 / libc
environment that returns a value becomes a field of an environment record, and
every call that acts on the outside world becomes an `Effect` appended to an
ordered trace.  Blocking polling loops carry explicit fuel.
-/

namespace SubzeroProbe

/-! ## Compile-time configuration (main.cpp lines 9-20) -/

/-- Line 9: `#define WIFI_ENABLED true`. -/
def WIFI_ENABLED : Bool := true

/-- Line 10: `#define AHT_ENABLED false`. -/
def AHT_ENABLED : Bool := false

/-- Line 11: `#define DEBUG true`. -/
def DEBUG : Bool := true

/-- Line 13: `const int MAX_BUFFER_SIZE = 5;`. -/
def MAX_BUFFER_SIZE : Int := 5

/-- Line 14: `const int STATUS_LED_PIN = 2;`. -/
def STATUS_LED_PIN : Nat := 2

/-- Line 17. -/
def WIFI_SSID : String := "SSID"

/-- Line 18. -/
def WIFI_PASS : String := "PW"

/-- Line 19. -/
def TIMEZONE : String := "Australia/Sydney"

/-- Line 20. -/
def REPORT_ENDPOINT : String := "https://localhost:55155/v1/report"

/-! ## Data model (main.cpp lines 22-38) -/

/-- A C `float`, represented by its IEEE-754 binary32 bit pattern.  The program
only stores and copies floats, it never computes with them. -/
abbrev CFloat := Nat

/-- Lines 22-27: `struct SensorData`; `time` is a `time_t` (seconds since the
epoch). -/
structure SensorData where
  temperature : CFloat
  humidity : CFloat
  time : Int
  deriving DecidableEq, Repr

/-- A zero-initialised `SensorData`, as every element of a global array is
before `setup()` runs. -/
def SensorData.zero : SensorData := ⟨0, 0, 0⟩

/-- The mutable globals of lines 37-38: `sensor_buffer` and
`sensor_buffer_count`. -/
structure Globals where
  sensor_buffer : List SensorData
  sensor_buffer_count : Int
  deriving DecidableEq, Repr

/-- The globals at program start: `SensorData sensor_buffer[MAX_BUFFER_SIZE]`
zero-initialised and `int sensor_buffer_count = 0`. -/
def Globals.init : Globals :=
  { sensor_buffer := List.replicate MAX_BUFFER_SIZE.toNat SensorData.zero,
    sensor_buffer_count := 0 }

/-- The array `sensor_buffer` has exactly `MAX_BUFFER_SIZE` elements. -/
def Globals.WellSized (g : Globals) : Prop :=
  g.sensor_buffer.length = MAX_BUFFER_SIZE.toNat

instance (g : Globals) : Decidable g.WellSized := by
  unfold Globals.WellSized; infer_instance

/-! ## The JSON document built by `report()` -/

/-- One element of the `data` array (lines 186-193).  `time` is `none` when
`strftime` could not fit its output into `timeBuf`, whose contents are then
indeterminate. -/
structure JsonObject where
  temperature : CFloat
  humidity : CFloat
  time : Option String
  deriving DecidableEq, Repr

/-- The document of lines 176-194: `deviceAddress` and the `data` array. -/
structure JsonDocument where
  deviceAddress : String
  data : List JsonObject
  deriving DecidableEq, Repr

/-! ## Effects on the outside world -/

/-- Modelled from the spec: the pin levels `LOW` and `HIGH` of `Arduino.h`, which is
not under src/; section 6 describes the busy indicator as a binary on/off
signal. -/
inductive PinLevel where
  | LOW
  | HIGH
  deriving DecidableEq, Repr

/-- Modelled from the spec: the interface modes passed to `WiFi.mode`, declared in
the ESP8266WiFi library, which is not under src/; section 4.2 speaks of
disabling the interface and re-enabling it in station mode. -/
inductive WiFiMode where
  | WIFI_OFF
  | WIFI_STA
  deriving DecidableEq, Repr

/-- Modelled from the spec: the enumeration `wl_status_t` returned by
`WiFi.status()`, declared in the ESP8266WiFi library, which is not under src/;
section 4.2 distinguishes the connected status and the explicit connect-failed
status from all others. -/
inductive wl_status_t where
  | WL_NO_SHIELD
  | WL_IDLE_STATUS
  | WL_NO_SSID_AVAIL
  | WL_SCAN_COMPLETED
  | WL_CONNECTED
  | WL_CONNECT_FAILED
  | WL_CONNECTION_LOST
  | WL_WRONG_PASSWORD
  | WL_DISCONNECTED
  deriving DecidableEq, Repr

/-- One externally visible action of the program, in the order the source
performs it. -/
inductive Effect where
  | serial_begin (baud : Nat)
  | serial_setTimeout (ms : Nat)
  | pinMode_output (pin : Nat)
  | digitalWrite (pin : Nat) (level : PinLevel)
  | serial_print (s : String)
  | serial_println (s : String)
  | serial_print_time (t : Int)
  | serial_print_float (f : CFloat)
  | serial_print_uint (n : Nat)
  | serial_println_json (doc : JsonDocument)
  | delay (ms : Nat)
  | configTime (tz : String) (server : String)
  | wifi_begin (ssid : String) (pass : String)
  | wifi_persistent (b : Bool)
  | wifi_mode (m : WiFiMode)
  | http_begin (url : String)
  | http_addHeader (name : String) (value : String)
  | http_POST (body : JsonDocument)
  | http_end
  deriving DecidableEq, Repr

/-! ## What the environment returns -/

/-- The two `sensors_event_t` values filled in by `aht.getEvent` (lines 83-84),
reduced to the fields the program reads. -/
structure AhtEvent where
  relative_humidity : CFloat
  temperature : CFloat
  deriving DecidableEq, Repr

/-- Everything the environment returns to one execution of `loop()`. -/
structure TickEnv where
  /-- Value of `time(nullptr)` at line 78. -/
  now : Int
  /-- What `aht.getEvent` would deliver at line 84. -/
  event : AhtEvent
  /-- Value of `Serial.availableForWrite()` at line 221. -/
  availableForWrite : Nat
  /-- Value of `ESP.getFreeHeap()` at line 115. -/
  freeHeap : Nat
  /-- Value of `WiFi.macAddress()` at line 179. -/
  macAddress : String
  /-- Value returned by `http.POST(json)` at line 211; negative values are the
  transport errors of the HTTP client. -/
  httpStatusCode : Int
  deriving DecidableEq, Repr

/-- Everything the environment returns during `setup()`: the successive
results of `aht.begin()`, of `WiFi.status()` and of `time(nullptr)`, each
indexed by the number of earlier calls, and the address printed at line 171. -/
structure BootEnv where
  ahtBegin : Nat → Bool
  wifiStatus : Nat → wl_status_t
  clock : Nat → Int
  localIP : String

/-! ## libc time formatting used by `report()` (lines 190-192) -/

/-- Modelled from the spec: the fields of the libc `struct tm` that `%F` and `%T`
read (the UTC calendar fields of section 4.4 step 2); `time.h` is not under
src/. -/
structure tm where
  tm_sec : Int
  tm_min : Int
  tm_hour : Int
  tm_mday : Int
  tm_mon : Int
  tm_year : Int
  deriving DecidableEq, Repr

/-- Modelled from the spec: part of `gmtime`.  The year of the proleptic Gregorian
calendar (counted from March) in which day `z` falls, `z` being the number of
days since 0000-03-01, together with the zero-based day of that March-based
year. -/
def civilYearDay (z : Int) : Int × Int :=
  let era := z / 146097
  let eraday := z - era * 146097
  let erayear := (eraday - eraday / 1460 + eraday / 36524 - eraday / 146096) / 365
  let yearday := eraday - (365 * erayear + erayear / 4 - erayear / 100)
  (erayear + era * 400, yearday)

/-- Modelled from the spec: `gmtime` is a libc function whose code is not part
of this repository; section 4.4 step 2 describes it as converting the
absolute timestamp of a reading (seconds since the epoch) to UTC calendar
fields.  The conversion is the usual one for the proleptic Gregorian calendar
with days of exactly 86400 seconds: split into days and seconds of the day,
then find year, month and day of month by counting from 0000-03-01. -/
def gmtime (t : Int) : tm :=
  let days := t / 86400 + 719468
  let rem := t % 86400
  let (marchYear, yearday) := civilYearDay days
  let mp := (5 * yearday + 2) / 153
  let day := yearday - (153 * mp + 2) / 5 + 1
  let month := if mp < 10 then mp + 2 else mp - 10
  let year := marchYear + (if month ≤ 1 then 1 else 0)
  { tm_sec := rem % 60,
    tm_min := rem % 3600 / 60,
    tm_hour := rem / 3600,
    tm_mday := day,
    tm_mon := month,
    tm_year := year - 1900 }

/-- Modelled from the spec: part of `strftime`.  The character of the decimal
digit `d % 10`. -/
def decimalDigit (d : Nat) : Char := Char.ofNat (48 + d % 10)

/-- Modelled from the spec: part of `strftime`.  Decimal text of `n`, zero-padded
on the left to at least `width` digits (the `%0<width>d` conversion for a
non-negative value). -/
def zeroPadded : Nat → Nat → List Char
  | 0, n => if n = 0 then [] else Nat.toDigits 10 n
  | w + 1, n => zeroPadded w (n / 10) ++ [decimalDigit n]

/-- Modelled from the spec: part of `strftime`.  Zero-padded decimal text of an
integer, with a minus sign when negative. -/
def zeroPaddedInt (width : Nat) (i : Int) : List Char :=
  if 0 ≤ i then zeroPadded width i.toNat else '-' :: zeroPadded width (-i).toNat

/-- Modelled from the spec: part of `strftime`.  The text it produces for the
format `"%FT%TZ"`, that is `%Y-%m-%dT%H:%M:%SZ` with a four-digit year and
two-digit other fields. -/
def formatFTZ (b : tm) : List Char :=
  zeroPaddedInt 4 (b.tm_year + 1900) ++ ['-'] ++ zeroPaddedInt 2 (b.tm_mon + 1) ++ ['-']
    ++ zeroPaddedInt 2 b.tm_mday ++ ['T'] ++ zeroPaddedInt 2 b.tm_hour ++ [':']
    ++ zeroPaddedInt 2 b.tm_min ++ [':'] ++ zeroPaddedInt 2 b.tm_sec ++ ['Z']

/-- Modelled from the spec: `strftime` is a libc function whose code is not
part of this repository; section 4.4 step 2 gives its output for the format
`"%FT%TZ"` as `YYYY-MM-DDTHH:MM:SSZ`.  As in C, the text is stored only when
it fits into `maxsize` bytes together with its terminating NUL; otherwise the
buffer contents are indeterminate (`none`). -/
def strftime (maxsize : Nat) (b : tm) : Option String :=
  let text := formatFTZ b
  if text.length + 1 ≤ maxsize then some (String.mk text) else none

/-! ## ISO-8601 parsing (section 8 of the specification, receiver side) -/

/-- Modelled from the spec: part of the ISO-8601 reading of section 8.  Gregorian
leap-year rule. -/
def isLeapYear (y : Int) : Bool :=
  y % 4 = 0 ∧ (y % 100 ≠ 0 ∨ y % 400 = 0)

/-- Modelled from the spec: part of the ISO-8601 reading of section 8.  Number of
days in month `m` (1 to 12) of year `y`. -/
def daysInMonth (y : Int) (m : Int) : Int :=
  if m = 2 then (if isLeapYear y then 29 else 28)
  else if m = 4 ∨ m = 6 ∨ m = 9 ∨ m = 11 then 30
  else 31

/-- Modelled from the spec: part of the ISO-8601 reading of section 8.  Number of
days of year `y` that precede the first day of month `m`. -/
def daysBeforeMonth (y : Int) (m : Int) : Int :=
  ((List.range (m - 1).toNat).map (fun i => daysInMonth y (i + 1))).sum

/-- Modelled from the spec: part of the ISO-8601 reading of section 8.  Number of
leap years among the years `1 .. y - 1`. -/
def leapYearsBefore (y : Int) : Int :=
  (y - 1) / 4 - (y - 1) / 100 + (y - 1) / 400

/-- Modelled from the spec: part of the ISO-8601 reading of section 8.  Number of
days from 1970-01-01 to the first day of year `y`. -/
def daysBeforeYear (y : Int) : Int :=
  365 * (y - 1970) + (leapYearsBefore y - leapYearsBefore 1970)

/-- Modelled from the spec: part of the ISO-8601 reading of section 8.  Seconds
since the epoch of a UTC calendar date and time of day. -/
def utcSeconds (y m d hh mm ss : Int) : Int :=
  (daysBeforeYear y + daysBeforeMonth y m + (d - 1)) * 86400 + hh * 3600 + mm * 60 + ss

/-- Modelled from the spec: part of the ISO-8601 reading of section 8.  Value of a
decimal digit character. -/
def digitValue (c : Char) : Option Nat :=
  if 48 ≤ c.toNat ∧ c.toNat ≤ 57 then some (c.toNat - 48) else none

/-- Modelled from the spec: part of the ISO-8601 reading of section 8.  Value of a
run of decimal digit characters. -/
def digitsValue : List Char → Option Nat
  | [] => some 0
  | cs => cs.foldl (fun acc c => do
      let a ← acc
      let v ← digitValue c
      pure (a * 10 + v)) (some 0)

/-- Modelled from the spec: the receiver of a report is not part of this
repository; section 8 says the emitted `time` string "parses back (via
standard ISO-8601 UTC parsing)" to an instant with second precision.  This is
that parser for the one form the report uses, `YYYY-MM-DDTHH:MM:SSZ`: it
checks the separators, reads the six numeric fields, rejects fields that do
not denote a calendar date and time of day, and counts the seconds since
1970-01-01T00:00:00Z. -/
def parseISO8601 (s : String) : Option Int :=
  match s.data with
  | [y1, y2, y3, y4, c1, m1, m2, c2, d1, d2, cT, h1, h2, c3, n1, n2, c4, s1, s2, cZ] =>
    if c1 = '-' ∧ c2 = '-' ∧ cT = 'T' ∧ c3 = ':' ∧ c4 = ':' ∧ cZ = 'Z' then do
      let y ← digitsValue [y1, y2, y3, y4]
      let m ← digitsValue [m1, m2]
      let d ← digitsValue [d1, d2]
      let hh ← digitsValue [h1, h2]
      let mm ← digitsValue [n1, n2]
      let ss ← digitsValue [s1, s2]
      if 1 ≤ m ∧ m ≤ 12 ∧ 1 ≤ d ∧ (d : Int) ≤ daysInMonth y m ∧ hh < 24 ∧ mm < 60 ∧ ss < 60 then
        some (utcSeconds y m d hh mm ss)
      else none
    else none
  | _ => none

/-! ## The program (main.cpp lines 40-232) -/

/-- Lines 133-136: `led(on)`, with `lit` for the parameter `on`, drives the status pin low to switch the indicator
on and high to switch it off. -/
def led (lit : Bool) : List Effect :=
  [Effect.digitalWrite STATUS_LED_PIN (if lit then PinLevel.LOW else PinLevel.HIGH)]

/-- Lines 112-117. -/
def print_debug (freeHeap : Nat) : List Effect :=
  [Effect.serial_print "Free heap: ", Effect.serial_print_uint freeHeap,
   Effect.serial_println " bytes"]

/-- Lines 218-232.  The source prints `temperature` twice. -/
def log_temperature (availableForWrite : Nat) (sensorData : SensorData) : List Effect :=
  if availableForWrite = 0 then []
  else
    [Effect.serial_print "[", Effect.serial_print_time sensorData.time,
     Effect.serial_print "] ", Effect.serial_print_float sensorData.temperature,
     Effect.serial_print " C | ", Effect.serial_print_float sensorData.temperature,
     Effect.serial_print " %", Effect.serial_println ""]

/-- Lines 186-193: the JSON object added to the `data` array for one buffer
element; `timeBuf` has 21 bytes. -/
def report_item (item : SensorData) : JsonObject :=
  { temperature := item.temperature,
    humidity := item.humidity,
    time := strftime 21 (gmtime item.time) }

/-- Lines 176-194: the document after the range-for over the whole array
`sensor_buffer`, each iteration appending one object to `data`. -/
def report_document (macAddress : String) (g : Globals) : JsonDocument :=
  { deviceAddress := macAddress,
    data := g.sensor_buffer.foldl (fun dataArray item => dataArray ++ [report_item item]) [] }

/-- Lines 174-216: `report()`.  It reads the globals and does not write them;
the status code returned by `POST` is used for the diagnostic line only. -/
def report (dbg : Bool) (env : TickEnv) (g : Globals) : List Effect :=
  let doc := report_document env.macAddress g
  [Effect.serial_println "Serialising json"]
    ++ (if dbg then
          [Effect.serial_println ("Posting data to " ++ REPORT_ENDPOINT),
           Effect.serial_println_json doc]
        else [])
    ++ [Effect.http_begin REPORT_ENDPOINT,
        Effect.http_addHeader "Content-Type" "application/json",
        Effect.http_POST doc,
        Effect.http_end]
    ++ (if dbg then
          [Effect.serial_println ("Respose StatusCode: " ++ toString env.httpStatusCode)]
        else [])

/-- Lines 78-88: what one tick stores through the pointer `sensorData`.  The
time is always stored; humidity and temperature are stored only inside
`if (AHT_ENABLED)`. -/
def capture (aht : Bool) (env : TickEnv) (slot : SensorData) : SensorData :=
  let slot := { slot with time := env.now }
  if aht then
    { slot with humidity := env.event.relative_humidity,
                temperature := env.event.temperature }
  else slot

/-- Lines 77-91, up to and including `++sensor_buffer_count`: the globals once
the reading is stored and the cursor advanced.  Forming
`&sensor_buffer[sensor_buffer_count]` and writing through it is defined only
for an index inside the array, otherwise the result is `none`. -/
def loop_record (aht : Bool) (env : TickEnv) (g : Globals) : Option Globals :=
  if 0 ≤ g.sensor_buffer_count ∧ g.sensor_buffer_count < g.sensor_buffer.length then
    let i := g.sensor_buffer_count.toNat
    some { sensor_buffer := g.sensor_buffer.set i (capture aht env (g.sensor_buffer.getD i SensorData.zero)),
           sensor_buffer_count := g.sensor_buffer_count + 1 }
  else none

/-- Line 96: `sensor_buffer_count = 0;`.  These are the globals with which
`report()` is entered at line 97. -/
def loop_reset (g : Globals) : Globals :=
  { g with sensor_buffer_count := 0 }

/-- Lines 75-110: one execution of `loop()` with the flags `AHT_ENABLED` and
`DEBUG` as parameters.  Returns the globals afterwards and the ordered
effects, or `none` when the slot access is out of bounds. -/
def loopWith (aht dbg : Bool) (env : TickEnv) (g : Globals) : Option (Globals × List Effect) :=
  match loop_record aht env g with
  | none => none
  | some g1 =>
    let i := g.sensor_buffer_count.toNat
    let (g2, sent) :=
      if g1.sensor_buffer_count = MAX_BUFFER_SIZE then
        let g2 := loop_reset g1
        (g2, [Effect.serial_println "Send data"] ++ led true ++ report dbg env g2 ++ led false)
      else (g1, [])
    let logged :=
      if dbg then
        log_temperature env.availableForWrite (g2.sensor_buffer.getD i SensorData.zero)
          ++ print_debug env.freeHeap
      else []
    some (g2, sent ++ logged ++ [Effect.delay 5000])

/-- Lines 75-110: `loop()` as compiled, with `AHT_ENABLED` and `DEBUG` at their
values in the source. -/
def loop (env : TickEnv) (g : Globals) : Option (Globals × List Effect) :=
  loopWith AHT_ENABLED DEBUG env g

/-- Lines 124-128: the polling loop of `setup_ntp()`, starting at the poll
with index `k` of the clock.  Returns the effects and the number of polls made
so far, or `none` when the fuel runs out first. -/
def setup_ntp_wait (clock : Nat → Int) : Nat → Nat → Option (List Effect × Nat)
  | 0, _ => none
  | fuel + 1, k =>
    if clock k < 1500000000 then
      match setup_ntp_wait clock fuel (k + 1) with
      | none => none
      | some (effects, polls) => some (Effect.delay 500 :: effects, polls)
    else some ([], k + 1)

/-- Lines 119-131: `setup_ntp()`; `clock i` is the value of the call number
`i` of `time(nullptr)`. -/
def setup_ntp (clock : Nat → Int) (fuel : Nat) : Option (List Effect × Nat) :=
  match setup_ntp_wait clock fuel 0 with
  | none => none
  | some (effects, polls) =>
    some ([Effect.configTime TIMEZONE "pool.ntp.org"] ++ effects
            ++ [Effect.serial_println "Time set"], polls)

/-- Lines 155-166: the polling loop of `wifi_connect()`, starting at the call
with index `k` of `WiFi.status()`.  Every iteration calls `WiFi.status()`
twice. -/
def wifi_wait (status : Nat → wl_status_t) : Nat → Nat → Option (List Effect × Nat)
  | 0, _ => none
  | fuel + 1, k =>
    if status k ≠ wl_status_t.WL_CONNECTED then
      let failed :=
        if status (k + 1) = wl_status_t.WL_CONNECT_FAILED then
          [Effect.serial_println "Failed to connect to WiFi.", Effect.delay 10000]
        else []
      match wifi_wait status fuel (k + 2) with
      | none => none
      | some (effects, polls) =>
        some (failed ++ [Effect.delay 1000, Effect.serial_print "."] ++ effects, polls)
    else some ([], k + 1)

/-- Lines 138-172: `wifi_connect()`, whose first call of `WiFi.status()` has
index `k`.  Returns the effects and the index of the next call of
`WiFi.status()`. -/
def wifi_connect (status : Nat → wl_status_t) (localIP : String) (fuel : Nat) (k : Nat) :
    Option (List Effect × Nat) :=
  if status k = wl_status_t.WL_CONNECTED then some ([], k + 1)
  else
    match wifi_wait status fuel (k + 1) with
    | none => none
    | some (effects, polls) =>
      some ([Effect.serial_print "Connecting to: ", Effect.serial_println WIFI_SSID,
             Effect.wifi_begin WIFI_SSID WIFI_PASS,
             Effect.wifi_persistent false,
             Effect.wifi_mode WiFiMode.WIFI_OFF,
             Effect.wifi_mode WiFiMode.WIFI_STA,
             Effect.wifi_begin WIFI_SSID WIFI_PASS]
            ++ effects
            ++ [Effect.serial_println "", Effect.serial_println "WiFi connected",
                Effect.serial_println "IP address: ", Effect.serial_println localIP], polls)

/-- Lines 55-59: the wait for the sensor inside `if (AHT_ENABLED)`. -/
def aht_wait (ahtBegin : Nat → Bool) : Nat → Nat → Option (List Effect)
  | 0, _ => none
  | fuel + 1, k =>
    if ahtBegin k then some []
    else
      match aht_wait ahtBegin fuel (k + 1) with
      | none => none
      | some effects =>
        some ([Effect.serial_println "Could not find AHT20. Waiting...", Effect.delay 5000]
                ++ effects)

/-- Lines 40-73: `setup()` with the flags `WIFI_ENABLED` and `AHT_ENABLED` as
parameters.  Returns the ordered effects, or `none` when one of the waits runs
out of fuel. -/
def setupWith (wifi aht : Bool) (env : BootEnv) (fuel : Nat) : Option (List Effect) := do
  let booting :=
    [Effect.serial_begin 9600, Effect.serial_setTimeout 2000,
     Effect.pinMode_output STATUS_LED_PIN] ++ led true ++ [Effect.serial_println "Booting..."]
  let sensor ← if aht then aht_wait env.ahtBegin fuel 0 else some []
  let connect ← if wifi then (wifi_connect env.wifiStatus env.localIP fuel 0).map Prod.fst
                else some []
  let sync ← if wifi then (setup_ntp env.clock fuel).map Prod.fst else some []
  pure (booting ++ sensor ++ connect ++ sync ++ [Effect.serial_println "Bootup complete"]
          ++ led false)

/-- Lines 40-73: `setup()` as compiled. -/
def setup (env : BootEnv) (fuel : Nat) : Option (List Effect) :=
  setupWith WIFI_ENABLED AHT_ENABLED env fuel

/-! ## Runs of the steady-state loop -/

/-- The globals after the first `n` executions of `loop()` from the initial
globals; execution number `k` (counted from 1) receives `envs k`. -/
def runTicks (envs : Nat → TickEnv) : Nat → Option Globals
  | 0 => some Globals.init
  | n + 1 =>
    match runTicks envs n with
    | none => none
    | some g => (loop (envs (n + 1)) g).map Prod.fst

/-- The effects of execution number `k` (counted from 1) of `loop()` in the
run from the initial globals. -/
def tickEffects (envs : Nat → TickEnv) (k : Nat) : Option (List Effect) :=
  match runTicks envs (k - 1) with
  | none => none
  | some g => (loop (envs k) g).map Prod.snd

/-- Whether a trace contains the transmission made by `report()`. -/
def invokesReport (trace : List Effect) : Bool :=
  trace.any (fun e => match e with
    | Effect.http_POST _ => true
    | _ => false)

/-- The documents posted in a trace, in order. -/
def postedDocuments (trace : List Effect) : List JsonDocument :=
  trace.filterMap (fun e => match e with
    | Effect.http_POST doc => some doc
    | _ => none)

/-- The effects of the first `n` executions of `loop()`, concatenated. -/
def runEffects (envs : Nat → TickEnv) : Nat → Option (List Effect)
  | 0 => some []
  | n + 1 =>
    match runEffects envs n, tickEffects envs (n + 1) with
    | some earlier, some now => some (earlier ++ now)
    | _, _ => none

/-! ## Closed forms and sample inputs used by the theorems -/

/-- The text `YYYY-MM-DDTHH:MM:SSZ` of six calendar fields. -/
def isoText (y m d hh mm ss : Nat) : List Char :=
  [decimalDigit (y / 1000), decimalDigit (y / 100), decimalDigit (y / 10), decimalDigit y, '-',
   decimalDigit (m / 10), decimalDigit m, '-', decimalDigit (d / 10), decimalDigit d, 'T',
   decimalDigit (hh / 10), decimalDigit hh, ':', decimalDigit (mm / 10), decimalDigit mm, ':',
   decimalDigit (ss / 10), decimalDigit ss, 'Z']

/-- The globals after one execution of `loop()` from in-bounds globals `g`. -/
def afterTick (aht : Bool) (env : TickEnv) (g : Globals) : Globals :=
  { sensor_buffer := g.sensor_buffer.set g.sensor_buffer_count.toNat
      (capture aht env (g.sensor_buffer.getD g.sensor_buffer_count.toNat SensorData.zero)),
    sensor_buffer_count :=
      if g.sensor_buffer_count + 1 = MAX_BUFFER_SIZE then 0 else g.sensor_buffer_count + 1 }

/-- What `loop()` leaves in a slot that has only ever been written by `loop()`
since program start, when its latest write happened in a tick receiving
`env`. -/
def reading (env : TickEnv) : SensorData :=
  capture AHT_ENABLED env SensorData.zero

/-- The expected content of slot `i` after `n` ticks from the initial globals. -/
def slotAfter (envs : Nat → TickEnv) (n i : Nat) : SensorData :=
  if i < n % 5 then reading (envs (n - n % 5 + i + 1))
  else if n < 5 then SensorData.zero
  else reading (envs (n - n % 5 - 5 + i + 1))

/-- The globals after `n` ticks, in closed form. -/
def globalsAfter (envs : Nat → TickEnv) (n : Nat) : Globals :=
  { sensor_buffer := [slotAfter envs n 0, slotAfter envs n 1, slotAfter envs n 2,
      slotAfter envs n 3, slotAfter envs n 4],
    sensor_buffer_count := ((n % 5 : Nat) : Int) }

/-- A sample environment for one tick: 20.0 C and 50.0 % as binary32 bit
patterns, a writable serial port, and a refused connection as POST result. -/
def sampleEnv (now : Int) : TickEnv :=
  { now := now,
    event := { relative_humidity := 1112014848, temperature := 1101004800 },
    availableForWrite := 1,
    freeHeap := 40000,
    macAddress := "5C:CF:7F:00:00:01",
    httpStatusCode := -1 }

/-- A sample run: tick `k` happens `5 * k` seconds after 2023-11-14T22:13:20Z. -/
def sampleEnvs (k : Nat) : TickEnv :=
  sampleEnv (1700000000 + 5 * k)

/-- The levels written to the status LED pin in a trace, in order. -/
def ledWrites (trace : List Effect) : List PinLevel :=
  trace.filterMap (fun e => match e with
    | Effect.digitalWrite pin level => if pin = STATUS_LED_PIN then some level else none
    | _ => none)

/-- A link that is down for the first five status polls and connected from
then on. -/
def sampleStatus (i : Nat) : wl_status_t :=
  if i < 5 then wl_status_t.WL_DISCONNECTED else wl_status_t.WL_CONNECTED

/-- A clock that is unset (a few seconds after the epoch) for the first three
polls and synchronised from the fourth poll on. -/
def sampleClock (i : Nat) : Int :=
  if i < 3 then 5 + i else 1700000000 + i

/-- A boot environment with `sampleStatus` as link and `sampleClock` as clock. -/
def sampleBoot : BootEnv :=
  { ahtBegin := fun _ => true,
    wifiStatus := sampleStatus,
    clock := sampleClock,
    localIP := "192.168.1.20" }

/-! ## Statement-level execution of `loop()` -/

/-- One step of the execution of `loop()`, at the granularity of its
statements: a call that acts on the outside world, an assignment to a field of
a buffer slot or to `sensor_buffer_count`, and the entry into and the return
from `report()`.  The entry records the globals as they are at the moment of
the call. -/
inductive Step where
  | effect (e : Effect)
  | store_time (index : Nat) (value : Int)
  | store_humidity (index : Nat) (value : CFloat)
  | store_temperature (index : Nat) (value : CFloat)
  | store_count (value : Int)
  | enter_report (globals : Globals)
  | leave_report
  deriving DecidableEq, Repr

/-- The state of an execution in progress: the current globals and the steps
performed so far, oldest first. -/
structure Machine where
  globals : Globals
  steps : List Step
  deriving DecidableEq, Repr

/-- A statement that only calls into the outside world. -/
def exec_emit (effects : List Effect) (m : Machine) : Machine :=
  { m with steps := m.steps ++ effects.map Step.effect }

/-- Line 78: `sensorData->time = ...`, the pointer being `&sensor_buffer[index]`. -/
def exec_store_time (index : Nat) (value : Int) (m : Machine) : Machine :=
  { globals := { m.globals with
      sensor_buffer := m.globals.sensor_buffer.set index
        { m.globals.sensor_buffer.getD index SensorData.zero with time := value } },
    steps := m.steps ++ [Step.store_time index value] }

/-- Line 86: `sensorData->humidity = ...`. -/
def exec_store_humidity (index : Nat) (value : CFloat) (m : Machine) : Machine :=
  { globals := { m.globals with
      sensor_buffer := m.globals.sensor_buffer.set index
        { m.globals.sensor_buffer.getD index SensorData.zero with humidity := value } },
    steps := m.steps ++ [Step.store_humidity index value] }

/-- Line 87: `sensorData->temperature = ...`. -/
def exec_store_temperature (index : Nat) (value : CFloat) (m : Machine) : Machine :=
  { globals := { m.globals with
      sensor_buffer := m.globals.sensor_buffer.set index
        { m.globals.sensor_buffer.getD index SensorData.zero with temperature := value } },
    steps := m.steps ++ [Step.store_temperature index value] }

/-- An assignment to `sensor_buffer_count` (the `++` of line 91, line 96). -/
def exec_store_count (value : Int) (m : Machine) : Machine :=
  { globals := { m.globals with sensor_buffer_count := value },
    steps := m.steps ++ [Step.store_count value] }

/-- Line 97: the call `report();`.  `report()` runs on the globals as they are
when the call is made, which the entry step records. -/
def exec_report (dbg : Bool) (env : TickEnv) (m : Machine) : Machine :=
  { m with steps := m.steps ++ [Step.enter_report m.globals]
      ++ (report dbg env m.globals).map Step.effect ++ [Step.leave_report] }

/-- Lines 75-110: one execution of `loop()`, statement by statement in source
order, each statement acting on the machine left by the one before it.
Returns the final globals and all steps, or `none` when the slot access of
line 77 is out of bounds. -/
def loop_steps (aht dbg : Bool) (env : TickEnv) (g : Globals) :
    Option (Globals × List Step) :=
  if 0 ≤ g.sensor_buffer_count ∧ g.sensor_buffer_count < g.sensor_buffer.length then
    let i := g.sensor_buffer_count.toNat
    let m77 : Machine := { globals := g, steps := [] }
    let m78 := exec_store_time i env.now m77
    let m88 :=
      if aht then
        let m86 := exec_store_humidity i env.event.relative_humidity m78
        exec_store_temperature i env.event.temperature m86
      else m78
    let m91 := exec_store_count (m88.globals.sensor_buffer_count + 1) m88
    let m99 :=
      if m91.globals.sensor_buffer_count = MAX_BUFFER_SIZE then
        let m93 := exec_emit [Effect.serial_println "Send data"] m91
        let m95 := exec_emit (led true) m93
        let m96 := exec_store_count 0 m95
        let m97 := exec_report dbg env m96
        exec_emit (led false) m97
      else m91
    let m106 :=
      if dbg then
        let m104 := exec_emit
          (log_temperature env.availableForWrite
            (m99.globals.sensor_buffer.getD i SensorData.zero)) m99
        exec_emit (print_debug env.freeHeap) m104
      else m99
    let m109 := exec_emit [Effect.delay 5000] m106
    some (m109.globals, m109.steps)
  else none

/-- The calls into the outside world among the steps, in order. -/
def stepEffects (steps : List Step) : List Effect :=
  steps.filterMap (fun s => match s with
    | Step.effect e => some e
    | _ => none)

/-- The globals recorded at each entry into `report()`, in order. -/
def reportEntries (steps : List Step) : List Globals :=
  steps.filterMap (fun s => match s with
    | Step.enter_report g => some g
    | _ => none)

/-- The values assigned to `sensor_buffer_count` among the steps, in order. -/
def countStores (steps : List Step) : List Int :=
  steps.filterMap (fun s => match s with
    | Step.store_count v => some v
    | _ => none)

/-- The steps that precede the first entry into `report()`. -/
def stepsBeforeReport (steps : List Step) : List Step :=
  steps.takeWhile (fun s => match s with
    | Step.enter_report _ => false
    | _ => true)

/-- The steps that follow the first return from `report()`. -/
def stepsAfterReport (steps : List Step) : List Step :=
  (steps.dropWhile (fun s => match s with
    | Step.leave_report => false
    | _ => true)).drop 1

/-! ## Theorems -/

/-! ### Calendar arithmetic: `gmtime` against the day count of the parser -/

theorem eraYear_century (doe f : Int) (hf : f = 0 ∨ f = 1 ∨ f = 2 ∨ f = 3)
    (h0 : 36524 * f ≤ doe) (h1 : doe < 36524 * (f + 1)) :
    let yoe := (doe - doe / 1460 + doe / 36524 - doe / 146096) / 365
    let yd := doe - (365 * yoe + yoe / 4 - yoe / 100)
    0 ≤ yoe ∧ yoe ≤ 399 ∧ 0 ≤ yd ∧
      (yd ≤ 364 ∨ (yd = 365 ∧ (yoe + 1) % 4 = 0 ∧ ((yoe + 1) % 100 ≠ 0 ∨ (yoe + 1) % 400 = 0))) := by
  intro yoe yd
  have h36 : doe / 36524 = f := by omega
  have h14 : doe / 146096 = 0 := by omega
  have hd : yoe / 100 = f := by omega
  have hq : yoe / 4 = 25 * f + (doe - 36524 * f) / 1461 := by
    rcases hf with hf | hf | hf | hf <;> subst hf <;> omega
  have hc : doe / 1460 = yoe / 4 ∨ doe / 1460 = yoe / 4 + 1 := by
    rcases hf with hf | hf | hf | hf <;> subst hf <;> omega
  have hk : yoe % 4 = 0 ∨ yoe % 4 = 1 ∨ yoe % 4 = 2 ∨ yoe % 4 = 3 := by omega
  rcases hf with hf | hf | hf | hf <;> subst hf <;> rcases hc with hc | hc <;>
    rcases hk with hk | hk | hk | hk <;> omega

theorem eraYear_spec (doe : Int) (h0 : 0 ≤ doe) (h1 : doe < 146097) :
    let yoe := (doe - doe / 1460 + doe / 36524 - doe / 146096) / 365
    let yd := doe - (365 * yoe + yoe / 4 - yoe / 100)
    0 ≤ yoe ∧ yoe ≤ 399 ∧ 0 ≤ yd ∧
      (yd ≤ 364 ∨ (yd = 365 ∧ (yoe + 1) % 4 = 0 ∧ ((yoe + 1) % 100 ≠ 0 ∨ (yoe + 1) % 400 = 0))) := by
  by_cases h : doe = 146096
  · subst h; decide
  · have hf : doe / 36524 = 0 ∨ doe / 36524 = 1 ∨ doe / 36524 = 2 ∨ doe / 36524 = 3 := by omega
    exact eraYear_century doe (doe / 36524) hf (by omega) (by omega)

theorem civilYearDay_spec (z : Int) :
    let e := z / 146097
    let yoe := (civilYearDay z).1 - e * 400
    let yd := (civilYearDay z).2
    0 ≤ yoe ∧ yoe ≤ 399 ∧ 0 ≤ yd ∧
      (yd ≤ 364 ∨ (yd = 365 ∧ (yoe + 1) % 4 = 0 ∧ ((yoe + 1) % 100 ≠ 0 ∨ (yoe + 1) % 400 = 0))) ∧
      z = 146097 * e + 365 * yoe + yoe / 4 - yoe / 100 + yd := by
  intro e yoe yd
  have h := eraYear_spec (z - z / 146097 * 146097) (by omega) (by omega)
  simp only [] at h
  have hy : yoe = ((z - z / 146097 * 146097) - (z - z / 146097 * 146097) / 1460
      + (z - z / 146097 * 146097) / 36524 - (z - z / 146097 * 146097) / 146096) / 365 := by
    simp only [yoe, e, civilYearDay]; ring
  have hyd : yd = (z - z / 146097 * 146097) - (365 * yoe + yoe / 4 - yoe / 100) := by
    rw [hy]; simp only [yd, civilYearDay]
  rw [← hy] at h
  rw [← hyd] at h
  refine ⟨h.1, h.2.1, h.2.2.1, h.2.2.2, ?_⟩
  rw [hyd]; simp only [e]; ring

theorem daysBeforeMonth_table (y : Int) :
    daysBeforeMonth y 1 = 0 ∧ daysBeforeMonth y 2 = 31 ∧
    daysBeforeMonth y 3 = 31 + daysInMonth y 2 ∧ daysBeforeMonth y 4 = 62 + daysInMonth y 2 ∧
    daysBeforeMonth y 5 = 92 + daysInMonth y 2 ∧ daysBeforeMonth y 6 = 123 + daysInMonth y 2 ∧
    daysBeforeMonth y 7 = 153 + daysInMonth y 2 ∧ daysBeforeMonth y 8 = 184 + daysInMonth y 2 ∧
    daysBeforeMonth y 9 = 215 + daysInMonth y 2 ∧ daysBeforeMonth y 10 = 245 + daysInMonth y 2 ∧
    daysBeforeMonth y 11 = 276 + daysInMonth y 2 ∧ daysBeforeMonth y 12 = 306 + daysInMonth y 2 := by
  refine ⟨?_, ?_, ?_, ?_, ?_, ?_, ?_, ?_, ?_, ?_, ?_, ?_⟩ <;>
    simp [daysBeforeMonth, List.range_succ, daysInMonth] <;> ring

theorem leapYearsBefore_era (e w : Int) :
    leapYearsBefore (400 * e + w + 1) = 97 * e + (w / 4 - w / 100 + w / 400) := by
  unfold leapYearsBefore
  omega

theorem isLeapYear_era (e w : Int) :
    isLeapYear (400 * e + w) = isLeapYear w := by
  unfold isLeapYear
  have h4 : (400 * e + w) % 4 = w % 4 := by omega
  have h100 : (400 * e + w) % 100 = w % 100 := by omega
  have h400 : (400 * e + w) % 400 = w % 400 := by omega
  rw [h4, h100, h400]

theorem civilYearDay_era (z : Int) :
    ∃ e yoe : Int, (civilYearDay z).1 = 400 * e + yoe ∧ 0 ≤ yoe ∧ yoe ≤ 399 ∧
      0 ≤ (civilYearDay z).2 ∧
      ((civilYearDay z).2 ≤ 364 ∨ ((civilYearDay z).2 = 365 ∧ isLeapYear (yoe + 1) = true)) ∧
      z = 146097 * e + 365 * yoe + yoe / 4 - yoe / 100 + (civilYearDay z).2 := by
  obtain ⟨h1, h2, h3, h4, h5⟩ := civilYearDay_spec z
  refine ⟨z / 146097, (civilYearDay z).1 - z / 146097 * 400, by ring, h1, h2, h3, ?_, h5⟩
  rcases h4 with h4 | h4
  · exact Or.inl h4
  · refine Or.inr ⟨h4.1, ?_⟩
    simp only [isLeapYear, decide_eq_true_eq]
    exact h4.2

theorem daysInMonth_fixed (y : Int) :
    daysInMonth y 1 = 31 ∧ daysInMonth y 3 = 31 ∧ daysInMonth y 4 = 30 ∧ daysInMonth y 5 = 31 ∧
    daysInMonth y 6 = 30 ∧ daysInMonth y 7 = 31 ∧ daysInMonth y 8 = 31 ∧ daysInMonth y 9 = 30 ∧
    daysInMonth y 10 = 31 ∧ daysInMonth y 11 = 30 ∧ daysInMonth y 12 = 31 := by
  simp [daysInMonth]

theorem february_length (yoe : Int) (hy0 : 0 ≤ yoe) (hy1 : yoe ≤ 399) :
    (if isLeapYear yoe = true then (29 : Int) else 28) =
      28 + (yoe / 4 - yoe / 100) - ((yoe - 1) / 4 - (yoe - 1) / 100 + (yoe - 1) / 400) := by
  by_cases hl : isLeapYear yoe = true
  · rw [if_pos hl]
    simp only [isLeapYear, decide_eq_true_eq] at hl
    omega
  · rw [if_neg hl]
    simp only [isLeapYear, decide_eq_true_eq] at hl
    omega

theorem civil_date_aux (n e yoe yd mp day month year : Int)
    (h0 : 0 ≤ n) (h1 : n ≤ 2932896) (hy0 : 0 ≤ yoe) (hy1 : yoe ≤ 399) (hd0 : 0 ≤ yd)
    (hleap : yd ≤ 364 ∨ (yd = 365 ∧ isLeapYear (yoe + 1) = true))
    (hz : n + 719468 = 146097 * e + 365 * yoe + yoe / 4 - yoe / 100 + yd)
    (hmp : mp = (5 * yd + 2) / 153) (hday : day = yd - (153 * mp + 2) / 5 + 1)
    (hmonth : month = if mp < 10 then mp + 2 else mp - 10)
    (hyear : year = 400 * e + yoe + (if month ≤ 1 then 1 else 0)) :
    1970 ≤ year ∧ year ≤ 9999 ∧ 0 ≤ month ∧ month ≤ 11 ∧ 1 ≤ day ∧
      day ≤ daysInMonth year (month + 1) ∧
      daysBeforeYear year + daysBeforeMonth year (month + 1) + (day - 1) = n := by
  have hd1 : yd ≤ 365 := by omega
  have hmp0 : 0 ≤ mp := by omega
  have hmp1 : mp ≤ 11 := by omega
  have h1970 : leapYearsBefore 1970 = 477 := by unfold leapYearsBefore; norm_num
  obtain ⟨B, hB⟩ : ∃ B : Int, B = yoe / 4 - yoe / 100 := ⟨_, rfl⟩
  have hB0 : 0 ≤ B := by omega
  have hB1 : B ≤ 96 := by omega
  have hz2 : n + 719468 = 146097 * e + 365 * yoe + B + yd := by omega
  clear hz
  have he0 : 4 ≤ e := by omega
  have he1 : e ≤ 24 := by omega
  by_cases hlt : mp < 10
  · rw [if_pos hlt] at hmonth
    rw [if_neg (by omega)] at hyear
    have hyear1 : year = 400 * e + yoe := by omega
    have hyear2 : year = 400 * e + (yoe - 1) + 1 := by omega
    obtain ⟨A, hA⟩ : ∃ A : Int, A = (yoe - 1) / 4 - (yoe - 1) / 100 + (yoe - 1) / 400 := ⟨_, rfl⟩
    have hdy : daysBeforeYear year = 365 * (year - 1970) + (97 * e + A - 477) := by
      unfold daysBeforeYear; rw [h1970, hyear2, leapYearsBefore_era, hA]
    have hF : daysInMonth year 2 = 28 + B - A := by
      have hI := isLeapYear_era e yoe
      rw [← hyear1] at hI
      simp only [daysInMonth, if_true, hI]
      rw [february_length yoe hy0 hy1, hA, hB]
    have hyr0 : 1970 ≤ year := by omega
    have hyr1 : year ≤ 9999 := by omega
    clear hA hB hleap h1970 hyear2 hyear
    have hm : mp = 0 ∨ mp = 1 ∨ mp = 2 ∨ mp = 3 ∨ mp = 4 ∨ mp = 5 ∨ mp = 6 ∨ mp = 7 ∨
        mp = 8 ∨ mp = 9 := by omega
    obtain ⟨m1, m3, m4, m5, m6, m7, m8, m9, m10, m11, m12⟩ := daysInMonth_fixed year
    obtain ⟨t1, t2, t3, t4, t5, t6, t7, t8, t9, t10, t11, t12⟩ := daysBeforeMonth_table year
    rcases hm with hm | hm | hm | hm | hm | hm | hm | hm | hm | hm
    · have hm1 : month + 1 = 3 := by omega
      rw [hm1, t3, m3, hdy, hF]
      clear m1 m3 m4 m5 m6 m7 m8 m9 m10 m11 m12 t1 t2 t3 t4 t5 t6 t7 t8 t9 t10 t11 t12 hdy hF
      omega
    · have hm1 : month + 1 = 4 := by omega
      rw [hm1, t4, m4, hdy, hF]
      clear m1 m3 m4 m5 m6 m7 m8 m9 m10 m11 m12 t1 t2 t3 t4 t5 t6 t7 t8 t9 t10 t11 t12 hdy hF
      omega
    · have hm1 : month + 1 = 5 := by omega
      rw [hm1, t5, m5, hdy, hF]
      clear m1 m3 m4 m5 m6 m7 m8 m9 m10 m11 m12 t1 t2 t3 t4 t5 t6 t7 t8 t9 t10 t11 t12 hdy hF
      omega
    · have hm1 : month + 1 = 6 := by omega
      rw [hm1, t6, m6, hdy, hF]
      clear m1 m3 m4 m5 m6 m7 m8 m9 m10 m11 m12 t1 t2 t3 t4 t5 t6 t7 t8 t9 t10 t11 t12 hdy hF
      omega
    · have hm1 : month + 1 = 7 := by omega
      rw [hm1, t7, m7, hdy, hF]
      clear m1 m3 m4 m5 m6 m7 m8 m9 m10 m11 m12 t1 t2 t3 t4 t5 t6 t7 t8 t9 t10 t11 t12 hdy hF
      omega
    · have hm1 : month + 1 = 8 := by omega
      rw [hm1, t8, m8, hdy, hF]
      clear m1 m3 m4 m5 m6 m7 m8 m9 m10 m11 m12 t1 t2 t3 t4 t5 t6 t7 t8 t9 t10 t11 t12 hdy hF
      omega
    · have hm1 : month + 1 = 9 := by omega
      rw [hm1, t9, m9, hdy, hF]
      clear m1 m3 m4 m5 m6 m7 m8 m9 m10 m11 m12 t1 t2 t3 t4 t5 t6 t7 t8 t9 t10 t11 t12 hdy hF
      omega
    · have hm1 : month + 1 = 10 := by omega
      rw [hm1, t10, m10, hdy, hF]
      clear m1 m3 m4 m5 m6 m7 m8 m9 m10 m11 m12 t1 t2 t3 t4 t5 t6 t7 t8 t9 t10 t11 t12 hdy hF
      omega
    · have hm1 : month + 1 = 11 := by omega
      rw [hm1, t11, m11, hdy, hF]
      clear m1 m3 m4 m5 m6 m7 m8 m9 m10 m11 m12 t1 t2 t3 t4 t5 t6 t7 t8 t9 t10 t11 t12 hdy hF
      omega
    · have hm1 : month + 1 = 12 := by omega
      rw [hm1, t12, m12, hdy, hF]
      clear m1 m3 m4 m5 m6 m7 m8 m9 m10 m11 m12 t1 t2 t3 t4 t5 t6 t7 t8 t9 t10 t11 t12 hdy hF
      omega
  · rw [if_neg hlt] at hmonth
    rw [if_pos (by omega)] at hyear
    obtain ⟨A, hA⟩ : ∃ A : Int, A = yoe / 4 - yoe / 100 + yoe / 400 := ⟨_, rfl⟩
    have hAB : A = B := by omega
    have hdy : daysBeforeYear year = 365 * (year - 1970) + (97 * e + A - 477) := by
      unfold daysBeforeYear; rw [h1970, hyear, leapYearsBefore_era, hA]
    have hF : daysInMonth year 2 = if isLeapYear (yoe + 1) = true then 29 else 28 := by
      have hI := isLeapYear_era e (yoe + 1)
      rw [show 400 * e + (yoe + 1) = 400 * e + yoe + 1 by ring, ← hyear] at hI
      simp only [daysInMonth, if_true, hI]
    have hyr0 : 1970 ≤ year := by omega
    have hyr1 : year ≤ 9999 := by omega
    clear hA hB h1970
    have hm : mp = 10 ∨ mp = 11 := by omega
    obtain ⟨m1, -⟩ := daysInMonth_fixed year
    obtain ⟨t1, t2, -⟩ := daysBeforeMonth_table year
    rcases hm with hm | hm
    · have hm1 : month + 1 = 1 := by omega
      rw [hm1, t1, m1, hdy]
      clear m1 t1 t2 hdy hF hleap
      omega
    · have hm1 : month + 1 = 2 := by omega
      rw [hm1, t2, hF, hdy]
      clear m1 t1 t2 hdy hF
      rcases hleap with hl | ⟨hl, hl2⟩
      · split_ifs <;> omega
      · rw [if_pos hl2]; omega

theorem gmtime_fields (t : Int) (h0 : 0 ≤ t) (h1 : t ≤ 253402300799) :
    70 ≤ (gmtime t).tm_year ∧ (gmtime t).tm_year ≤ 8099 ∧
    0 ≤ (gmtime t).tm_mon ∧ (gmtime t).tm_mon ≤ 11 ∧
    1 ≤ (gmtime t).tm_mday ∧
    (gmtime t).tm_mday ≤ daysInMonth ((gmtime t).tm_year + 1900) ((gmtime t).tm_mon + 1) ∧
    0 ≤ (gmtime t).tm_hour ∧ (gmtime t).tm_hour < 24 ∧
    0 ≤ (gmtime t).tm_min ∧ (gmtime t).tm_min < 60 ∧
    0 ≤ (gmtime t).tm_sec ∧ (gmtime t).tm_sec < 60 ∧
    utcSeconds ((gmtime t).tm_year + 1900) ((gmtime t).tm_mon + 1) (gmtime t).tm_mday
      (gmtime t).tm_hour (gmtime t).tm_min (gmtime t).tm_sec = t := by
  obtain ⟨e, yoe, hY, hy0, hy1, hd0, hleap, hz⟩ := civilYearDay_era (t / 86400 + 719468)
  generalize hyd : (civilYearDay (t / 86400 + 719468)).2 = yd at hd0 hleap hz
  generalize hmp : (5 * yd + 2) / 153 = mp
  generalize hday : yd - (153 * mp + 2) / 5 + 1 = day
  generalize hmonth : (if mp < 10 then mp + 2 else mp - 10) = month
  generalize hyear : (civilYearDay (t / 86400 + 719468)).1 + (if month ≤ 1 then 1 else 0) = year
  have hg : gmtime t =
      { tm_sec := t % 86400 % 60, tm_min := t % 86400 % 3600 / 60, tm_hour := t % 86400 / 3600,
        tm_mday := day, tm_mon := month, tm_year := year - 1900 } := by
    subst hyear hmonth hday hmp hyd
    rfl
  have H := civil_date_aux (t / 86400) e yoe yd mp day month year (by omega) (by omega)
    hy0 hy1 hd0 hleap hz hmp.symm hday.symm hmonth.symm (by rw [← hyear, hY])
  obtain ⟨H1, H2, H3, H4, H5, H6, H7⟩ := H
  rw [hg]
  simp only [sub_add_cancel]
  refine ⟨by omega, by omega, H3, H4, H5, H6, by omega, by omega, by omega, by omega,
    by omega, by omega, ?_⟩
  unfold utcSeconds
  rw [H7]
  omega

/-! ### The text of a timestamp and its parse -/

theorem digitValue_decimalDigit (d : Nat) : digitValue (decimalDigit d) = some (d % 10) := by
  unfold decimalDigit
  have hk : d % 10 < 10 := Nat.mod_lt _ (by norm_num)
  generalize d % 10 = k at hk
  interval_cases k <;> rfl

theorem zeroPadded_two (n : Nat) (h : n < 100) :
    zeroPadded 2 n = [decimalDigit (n / 10), decimalDigit n] := by
  have h0 : n / 10 / 10 = 0 := by omega
  simp [zeroPadded, h0]

theorem zeroPadded_four (n : Nat) (h : n < 10000) :
    zeroPadded 4 n = [decimalDigit (n / 1000), decimalDigit (n / 100), decimalDigit (n / 10),
      decimalDigit n] := by
  have h0 : n / 10 / 10 / 10 / 10 = 0 := by omega
  have h1 : n / 10 / 10 / 10 = n / 1000 := by omega
  have h2 : n / 10 / 10 = n / 100 := by omega
  simp only [zeroPadded]
  rw [if_pos h0, h1, h2]
  rfl

theorem digitsValue_two (n : Nat) (h : n < 100) :
    digitsValue [decimalDigit (n / 10), decimalDigit n] = some n := by
  simp only [digitsValue, List.foldl, digitValue_decimalDigit, bind, Option.bind, pure]
  congr 1
  omega

theorem digitsValue_four (n : Nat) (h : n < 10000) :
    digitsValue [decimalDigit (n / 1000), decimalDigit (n / 100), decimalDigit (n / 10),
      decimalDigit n] = some n := by
  simp only [digitsValue, List.foldl, digitValue_decimalDigit, bind, Option.bind, pure]
  congr 1
  omega

theorem zeroPaddedInt_two (i : Int) (n : Nat) (hi : i = n) (h : n < 100) :
    zeroPaddedInt 2 i = [decimalDigit (n / 10), decimalDigit n] := by
  subst hi
  simp only [zeroPaddedInt, Int.natCast_nonneg, if_true, Int.toNat_ofNat]
  exact zeroPadded_two n h

theorem zeroPaddedInt_four (i : Int) (n : Nat) (hi : i = n) (h : n < 10000) :
    zeroPaddedInt 4 i = [decimalDigit (n / 1000), decimalDigit (n / 100), decimalDigit (n / 10),
      decimalDigit n] := by
  subst hi
  simp only [zeroPaddedInt, Int.natCast_nonneg, if_true, Int.toNat_ofNat]
  exact zeroPadded_four n h

theorem formatFTZ_isoText (b : tm) (y m d hh mm ss : Nat)
    (hy : b.tm_year + 1900 = y) (hm : b.tm_mon + 1 = m) (hd : b.tm_mday = d)
    (hh1 : b.tm_hour = hh) (hm1 : b.tm_min = mm) (hs1 : b.tm_sec = ss)
    (by1 : y < 10000) (bm : m < 100) (bd : d < 100) (bh : hh < 100) (bmm : mm < 100)
    (bs : ss < 100) :
    formatFTZ b = isoText y m d hh mm ss := by
  unfold formatFTZ isoText
  rw [zeroPaddedInt_four _ y hy by1, zeroPaddedInt_two _ m hm bm, zeroPaddedInt_two _ d hd bd,
    zeroPaddedInt_two _ hh hh1 bh, zeroPaddedInt_two _ mm hm1 bmm, zeroPaddedInt_two _ ss hs1 bs]
  rfl

theorem parseISO8601_isoText (y m d hh mm ss : Nat)
    (by1 : y < 10000) (bm0 : 1 ≤ m) (bm : m ≤ 12) (bd0 : 1 ≤ d)
    (bd : (d : Int) ≤ daysInMonth y m) (bd2 : d < 100) (bh : hh < 24) (bmm : mm < 60)
    (bs : ss < 60) :
    parseISO8601 (String.mk (isoText y m d hh mm ss)) = some (utcSeconds y m d hh mm ss) := by
  have e1 := digitsValue_four y by1
  have e2 := digitsValue_two m (by omega)
  have e3 := digitsValue_two d bd2
  have e4 := digitsValue_two hh (by omega)
  have e5 := digitsValue_two mm (by omega)
  have e6 := digitsValue_two ss (by omega)
  simp only [parseISO8601, isoText, e1, e2, e3, e4, e5, e6, and_self, if_true, bind,
    Option.bind, bm0, bm, bd0, bd, bh, bmm, bs]

/-- C6: for every reading whose timestamp t satisfies 0 <= t <= 253402300799,
the `time` member emitted by `report()` is the 20-character text
`YYYY-MM-DDTHH:MM:SSZ` of the calendar fields `gmtime` gives for t (so it
fits the 21-byte `timeBuf` with its terminator), those fields denote a valid
date between 1970 and 9999 whose count of seconds since the epoch is t, and
parsing the text as an ISO-8601 UTC instant yields exactly t. -/
theorem C6_report_time_round_trip (item : SensorData) (h0 : 0 ≤ item.time)
    (h1 : item.time ≤ 253402300799) :
    ∃ y m d hh mm ss : Nat,
      gmtime item.time = { tm_sec := ss, tm_min := mm, tm_hour := hh, tm_mday := d,
                           tm_mon := (m : Int) - 1, tm_year := (y : Int) - 1900 } ∧
      (1970 ≤ y ∧ y ≤ 9999 ∧ 1 ≤ m ∧ m ≤ 12 ∧ 1 ≤ d ∧ (d : Int) ≤ daysInMonth y m ∧
        hh < 24 ∧ mm < 60 ∧ ss < 60) ∧
      utcSeconds y m d hh mm ss = item.time ∧
      (report_item item).time = some (String.mk (isoText y m d hh mm ss)) ∧
      (String.mk (isoText y m d hh mm ss)).length = 20 ∧
      (String.mk (isoText y m d hh mm ss)).length + 1 ≤ 21 ∧
      parseISO8601 (String.mk (isoText y m d hh mm ss)) = some item.time := by
  obtain ⟨a1, a2, a3, a4, a5, a6, a7, a8, a9, a10, a11, a12, a13⟩ :=
    gmtime_fields item.time h0 h1
  generalize hb : gmtime item.time = b at *
  obtain ⟨sec, mi, hr, md, mo, yr⟩ := b
  simp only at a1 a2 a3 a4 a5 a6 a7 a8 a9 a10 a11 a12 a13
  obtain ⟨y, hy⟩ : ∃ y : Nat, yr + 1900 = y := ⟨(yr + 1900).toNat, by omega⟩
  obtain ⟨m, hm⟩ : ∃ m : Nat, mo + 1 = m := ⟨(mo + 1).toNat, by omega⟩
  obtain ⟨d, hd⟩ : ∃ d : Nat, md = d := ⟨md.toNat, by omega⟩
  obtain ⟨hh, hhh⟩ : ∃ hh : Nat, hr = hh := ⟨hr.toNat, by omega⟩
  obtain ⟨mm, hmm⟩ : ∃ mm : Nat, mi = mm := ⟨mi.toNat, by omega⟩
  obtain ⟨ss, hss⟩ : ∃ ss : Nat, sec = ss := ⟨sec.toNat, by omega⟩
  rw [hy, hm, hd] at a6
  have hday31 : daysInMonth y m ≤ 31 := by
    unfold daysInMonth
    split_ifs <;> norm_num
  rw [hy, hm, hd, hhh, hmm, hss] at a13
  have hfmt : formatFTZ ⟨sec, mi, hr, md, mo, yr⟩ = isoText y m d hh mm ss :=
    formatFTZ_isoText _ y m d hh mm ss hy hm hd hhh hmm hss (by omega) (by omega) (by omega)
      (by omega) (by omega) (by omega)
  have hparse := parseISO8601_isoText y m d hh mm ss (by omega) (by omega) (by omega) (by omega)
    a6 (by omega) (by omega) (by omega) (by omega)
  rw [a13] at hparse
  refine ⟨y, m, d, hh, mm, ss, ?_, ⟨by omega, by omega, by omega, by omega, by omega, a6,
    by omega, by omega, by omega⟩, a13, ?_, rfl, Nat.le_refl 21, hparse⟩
  · rw [← hy, ← hm, hd, hhh, hmm, hss]
    simp only [add_sub_cancel_right]
  · simp only [report_item, hb, strftime, hfmt]
    exact if_pos (Nat.le_refl 21)

/-- Witness for C6: the instant 2024-02-29T12:34:56Z. -/
theorem C6_report_time_round_trip_witness :
    ∃ y m d hh mm ss : Nat,
      utcSeconds y m d hh mm ss = 1709210096 ∧
      (report_item { temperature := 0, humidity := 0, time := 1709210096 }).time
        = some (String.mk (isoText y m d hh mm ss)) ∧
      parseISO8601 (String.mk (isoText y m d hh mm ss)) = some 1709210096 := by
  obtain ⟨y, m, d, hh, mm, ss, _, _, h3, h4, _, _, h7⟩ :=
    C6_report_time_round_trip { temperature := 0, humidity := 0, time := 1709210096 }
      (by decide) (by decide)
  exact ⟨y, m, d, hh, mm, ss, h3, h4, h7⟩

/-- Concrete values of the `time` member: a leap day, the last second of the
year 9999, and the first second of the year 10000, whose 21-character text no
longer fits `timeBuf`. -/
theorem report_item_time_examples :
    (report_item { temperature := 0, humidity := 0, time := 1709210096 }).time
      = some "2024-02-29T12:34:56Z" ∧
    parseISO8601 "2024-02-29T12:34:56Z" = some 1709210096 ∧
    (report_item { temperature := 0, humidity := 0, time := 253402300799 }).time
      = some "9999-12-31T23:59:59Z" ∧
    (report_item { temperature := 0, humidity := 0, time := 253402300800 }).time = none := by
  refine ⟨by decide, by decide, by decide, by decide⟩

/-! ### One execution of `loop()` -/

theorem loop_record_some (aht : Bool) (env : TickEnv) (g : Globals)
    (h0 : 0 ≤ g.sensor_buffer_count) (h1 : g.sensor_buffer_count < g.sensor_buffer.length) :
    loop_record aht env g = some
      { sensor_buffer := g.sensor_buffer.set g.sensor_buffer_count.toNat
          (capture aht env (g.sensor_buffer.getD g.sensor_buffer_count.toNat SensorData.zero)),
        sensor_buffer_count := g.sensor_buffer_count + 1 } := by
  unfold loop_record
  rw [if_pos ⟨h0, h1⟩]

theorem loopWith_fst (aht dbg : Bool) (env : TickEnv) (g : Globals)
    (h0 : 0 ≤ g.sensor_buffer_count) (h1 : g.sensor_buffer_count < g.sensor_buffer.length) :
    (loopWith aht dbg env g).map Prod.fst = some (afterTick aht env g) := by
  unfold loopWith
  rw [loop_record_some aht env g h0 h1]
  simp only [afterTick, loop_reset]
  split_ifs <;> rfl

theorem loopWith_snd_full (aht dbg : Bool) (env : TickEnv) (g : Globals)
    (h0 : 0 ≤ g.sensor_buffer_count) (h1 : g.sensor_buffer_count < g.sensor_buffer.length)
    (hf : g.sensor_buffer_count + 1 = MAX_BUFFER_SIZE) :
    (loopWith aht dbg env g).map Prod.snd = some
      ([Effect.serial_println "Send data"] ++ led true ++ report dbg env (afterTick aht env g)
        ++ led false
        ++ (if dbg then
              log_temperature env.availableForWrite
                ((afterTick aht env g).sensor_buffer.getD g.sensor_buffer_count.toNat
                  SensorData.zero)
              ++ print_debug env.freeHeap
            else [])
        ++ [Effect.delay 5000]) := by
  unfold loopWith
  rw [loop_record_some aht env g h0 h1]
  simp only [afterTick, loop_reset, hf, if_true, Option.map]

theorem loopWith_snd_notFull (aht dbg : Bool) (env : TickEnv) (g : Globals)
    (h0 : 0 ≤ g.sensor_buffer_count) (h1 : g.sensor_buffer_count < g.sensor_buffer.length)
    (hf : g.sensor_buffer_count + 1 ≠ MAX_BUFFER_SIZE) :
    (loopWith aht dbg env g).map Prod.snd = some
      ((if dbg then
              log_temperature env.availableForWrite
                ((afterTick aht env g).sensor_buffer.getD g.sensor_buffer_count.toNat
                  SensorData.zero)
              ++ print_debug env.freeHeap
            else [])
        ++ [Effect.delay 5000]) := by
  unfold loopWith
  rw [loop_record_some aht env g h0 h1]
  simp only [afterTick, loop_reset, hf, if_false, Option.map, List.nil_append]

/-! ### The globals after `n` executions of `loop()` -/

theorem capture_capture (aht : Bool) (env env2 : TickEnv) (s : SensorData) :
    capture aht env (capture aht env2 s) = capture aht env s := by
  cases aht <;> rfl

theorem capture_reading (env env2 : TickEnv) :
    capture AHT_ENABLED env (reading env2) = reading env :=
  capture_capture _ _ _ _

theorem slotAfter_succ_ne (envs : Nat → TickEnv) (n i : Nat) (hi : i < 5) (hne : i ≠ n % 5) :
    slotAfter envs (n + 1) i = slotAfter envs n i := by
  have hr : n % 5 < 5 := Nat.mod_lt _ (by norm_num)
  by_cases h4 : n % 5 = 4
  · have h1 : (n + 1) % 5 = 0 := by omega
    have hlt : i < n % 5 := by omega
    have hn : ¬ (n + 1 < 5) := by omega
    simp only [slotAfter, h1, hlt, if_true, Nat.not_lt_zero, if_false, hn]
    congr 2
    omega
  · have h1 : (n + 1) % 5 = n % 5 + 1 := by omega
    simp only [slotAfter, h1]
    by_cases hlt : i < n % 5
    · rw [if_pos hlt, if_pos (by omega)]
      congr 2
      omega
    · rw [if_neg hlt, if_neg (by omega)]
      by_cases hn : n < 5
      · rw [if_pos hn, if_pos (by omega)]
      · rw [if_neg hn, if_neg (by omega)]
        congr 2
        omega

theorem slotAfter_succ_eq (envs : Nat → TickEnv) (n : Nat) :
    capture AHT_ENABLED (envs (n + 1)) (slotAfter envs n (n % 5))
      = slotAfter envs (n + 1) (n % 5) := by
  have hr : n % 5 < 5 := Nat.mod_lt _ (by norm_num)
  have hL : capture AHT_ENABLED (envs (n + 1)) (slotAfter envs n (n % 5))
      = reading (envs (n + 1)) := by
    unfold slotAfter
    rw [if_neg (lt_irrefl _)]
    split_ifs
    · rfl
    · exact capture_reading _ _
  rw [hL]
  by_cases h4 : n % 5 = 4
  · have h1 : (n + 1) % 5 = 0 := by omega
    have hn : ¬ (n + 1 < 5) := by omega
    simp only [slotAfter, h1, Nat.not_lt_zero, if_false, hn]
    congr 2
    omega
  · have h1 : (n + 1) % 5 = n % 5 + 1 := by omega
    simp only [slotAfter, h1]
    rw [if_pos (by omega)]
    congr 2
    omega

theorem runTicks_eq (envs : Nat → TickEnv) (n : Nat) :
    runTicks envs n = some
      { sensor_buffer := [slotAfter envs n 0, slotAfter envs n 1, slotAfter envs n 2,
          slotAfter envs n 3, slotAfter envs n 4],
        sensor_buffer_count := ((n % 5 : Nat) : Int) } := by
  induction n with
  | zero => rfl
  | succ n ih =>
    have hr : n % 5 < 5 := Nat.mod_lt _ (by norm_num)
    simp only [runTicks, ih]
    have hstep := loopWith_fst AHT_ENABLED DEBUG (envs (n + 1))
      { sensor_buffer := [slotAfter envs n 0, slotAfter envs n 1, slotAfter envs n 2,
          slotAfter envs n 3, slotAfter envs n 4],
        sensor_buffer_count := ((n % 5 : Nat) : Int) } (Int.natCast_nonneg _)
      (by simp only [List.length_cons, List.length_nil]; omega)
    unfold loop
    rw [hstep]
    congr 1
    have e := slotAfter_succ_eq envs n
    have ne := slotAfter_succ_ne envs n
    have hcases : n % 5 = 0 ∨ n % 5 = 1 ∨ n % 5 = 2 ∨ n % 5 = 3 ∨ n % 5 = 4 := by omega
    rcases hcases with h | h | h | h | h
    · have h1 : (n + 1) % 5 = 1 := by omega
      rw [h] at e ne
      rw [h, h1, ← e, ne 1 (by omega) (by omega), ne 2 (by omega) (by omega),
        ne 3 (by omega) (by omega), ne 4 (by omega) (by omega)]
      rfl
    · have h1 : (n + 1) % 5 = 2 := by omega
      rw [h] at e ne
      rw [h, h1, ← e, ne 0 (by omega) (by omega), ne 2 (by omega) (by omega),
        ne 3 (by omega) (by omega), ne 4 (by omega) (by omega)]
      rfl
    · have h1 : (n + 1) % 5 = 3 := by omega
      rw [h] at e ne
      rw [h, h1, ← e, ne 0 (by omega) (by omega), ne 1 (by omega) (by omega),
        ne 3 (by omega) (by omega), ne 4 (by omega) (by omega)]
      rfl
    · have h1 : (n + 1) % 5 = 4 := by omega
      rw [h] at e ne
      rw [h, h1, ← e, ne 0 (by omega) (by omega), ne 1 (by omega) (by omega),
        ne 2 (by omega) (by omega), ne 4 (by omega) (by omega)]
      rfl
    · have h1 : (n + 1) % 5 = 0 := by omega
      rw [h] at e ne
      rw [h, h1, ← e, ne 0 (by omega) (by omega), ne 1 (by omega) (by omega),
        ne 2 (by omega) (by omega), ne 3 (by omega) (by omega)]
      rfl

/-! ### What a trace posts -/

theorem invokesReport_append (a b : List Effect) :
    invokesReport (a ++ b) = (invokesReport a || invokesReport b) := by
  simp [invokesReport]

theorem postedDocuments_append (a b : List Effect) :
    postedDocuments (a ++ b) = postedDocuments a ++ postedDocuments b := by
  simp [postedDocuments]

theorem postedDocuments_logging (dbg : Bool) (w h : Nat) (s : SensorData) :
    postedDocuments (if dbg then log_temperature w s ++ print_debug h else []) = [] := by
  unfold log_temperature print_debug
  cases dbg <;> by_cases hw : w = 0 <;> simp [postedDocuments, hw]

theorem postedDocuments_report (dbg : Bool) (env : TickEnv) (g : Globals) :
    postedDocuments (report dbg env g) = [report_document env.macAddress g] := by
  unfold report
  cases dbg <;> simp [postedDocuments]

theorem postedDocuments_led (b : Bool) : postedDocuments (led b) = [] := by
  simp [postedDocuments, led]

theorem invokesReport_iff (tr : List Effect) :
    invokesReport tr = true ↔ postedDocuments tr ≠ [] := by
  induction tr with
  | nil => simp [invokesReport, postedDocuments]
  | cons e t ih =>
    cases e <;> simp_all [invokesReport, postedDocuments, List.filterMap_cons]

theorem foldl_append_singleton {α β : Type} (f : α → β) (l : List α) (init : List β) :
    l.foldl (fun acc x => acc ++ [f x]) init = init ++ l.map f := by
  induction l generalizing init with
  | nil => simp
  | cons a t ih => simp [ih]

theorem report_document_data (mac : String) (g : Globals) :
    (report_document mac g).data = g.sensor_buffer.map report_item := by
  unfold report_document
  simp only [foldl_append_singleton, List.nil_append]

/-- The trace of one tick posts exactly the document of the buffer when the
cursor reaches the capacity, and nothing otherwise. -/
theorem loop_posts (env : TickEnv) (g : Globals)
    (h0 : 0 ≤ g.sensor_buffer_count) (h1 : g.sensor_buffer_count < g.sensor_buffer.length) :
    ∃ tr, (loop env g).map Prod.snd = some tr ∧
      postedDocuments tr =
        if g.sensor_buffer_count + 1 = MAX_BUFFER_SIZE then
          [report_document env.macAddress (afterTick AHT_ENABLED env g)]
        else [] := by
  unfold loop
  by_cases hf : g.sensor_buffer_count + 1 = MAX_BUFFER_SIZE
  · refine ⟨_, loopWith_snd_full _ _ env g h0 h1 hf, ?_⟩
    rw [if_pos hf]
    simp only [postedDocuments_append, postedDocuments_logging,
      postedDocuments_report, postedDocuments_led, List.append_nil, List.nil_append]
    rfl
  · refine ⟨_, loopWith_snd_notFull _ _ env g h0 h1 hf, ?_⟩
    rw [if_neg hf]
    simp only [postedDocuments_append, postedDocuments_logging, List.nil_append]
    rfl

theorem runTicks_globalsAfter (envs : Nat → TickEnv) (n : Nat) :
    runTicks envs n = some (globalsAfter envs n) := runTicks_eq envs n

theorem globalsAfter_bounds (envs : Nat → TickEnv) (n : Nat) :
    0 ≤ (globalsAfter envs n).sensor_buffer_count ∧
      (globalsAfter envs n).sensor_buffer_count < (globalsAfter envs n).sensor_buffer.length := by
  have hr : n % 5 < 5 := Nat.mod_lt _ (by norm_num)
  simp only [globalsAfter, List.length_cons, List.length_nil]
  omega

theorem afterTick_globalsAfter (envs : Nat → TickEnv) (n : Nat) :
    afterTick AHT_ENABLED (envs (n + 1)) (globalsAfter envs n) = globalsAfter envs (n + 1) := by
  have h := runTicks_globalsAfter envs (n + 1)
  have hb := globalsAfter_bounds envs n
  simp only [runTicks, runTicks_globalsAfter envs n] at h
  unfold loop at h
  rw [loopWith_fst _ _ _ _ hb.1 hb.2] at h
  exact Option.some.inj h

theorem tickEffects_posts (envs : Nat → TickEnv) (n : Nat) :
    ∃ tr, tickEffects envs (n + 1) = some tr ∧
      postedDocuments tr =
        if (n + 1) % 5 = 0 then
          [report_document (envs (n + 1)).macAddress (globalsAfter envs (n + 1))]
        else [] := by
  have hb := globalsAfter_bounds envs n
  obtain ⟨tr, h1, h2⟩ := loop_posts (envs (n + 1)) (globalsAfter envs n) hb.1 hb.2
  refine ⟨tr, ?_, ?_⟩
  · simp only [tickEffects, Nat.add_sub_cancel, runTicks_globalsAfter envs n]
    exact h1
  · rw [h2, afterTick_globalsAfter]
    have hr : n % 5 < 5 := Nat.mod_lt _ (by norm_num)
    have hiff : (globalsAfter envs n).sensor_buffer_count + 1 = MAX_BUFFER_SIZE
        ↔ (n + 1) % 5 = 0 := by
      simp only [globalsAfter, MAX_BUFFER_SIZE]
      omega
    by_cases h : (n + 1) % 5 = 0
    · rw [if_pos h, if_pos (hiff.2 h)]
    · rw [if_neg h, if_neg (fun h2 => h (hiff.1 h2))]

theorem runEffects_posts (envs : Nat → TickEnv) (n : Nat) :
    ∃ all, runEffects envs n = some all ∧
      postedDocuments all = (List.range (n / 5)).map (fun j =>
        report_document (envs (5 * (j + 1))).macAddress (globalsAfter envs (5 * (j + 1)))) := by
  induction n with
  | zero => exact ⟨[], rfl, rfl⟩
  | succ n ih =>
    obtain ⟨earlier, he, hp⟩ := ih
    obtain ⟨now, hn, hq⟩ := tickEffects_posts envs n
    refine ⟨earlier ++ now, ?_, ?_⟩
    · simp only [runEffects, he, hn]
    · rw [postedDocuments_append, hp, hq]
      by_cases h : (n + 1) % 5 = 0
      · have hd : (n + 1) / 5 = n / 5 + 1 := by omega
        have hm : 5 * (n / 5 + 1) = n + 1 := by omega
        rw [if_pos h, hd, List.range_succ, List.map_append, List.map_singleton, hm]
      · have hd : (n + 1) / 5 = n / 5 := by omega
        rw [if_neg h, hd, List.append_nil]

theorem slotAfter_batch (envs : Nat → TickEnv) (k i : Nat) (hk : 1 ≤ k) :
    slotAfter envs (5 * k) i = capture AHT_ENABLED (envs (5 * (k - 1) + i + 1)) SensorData.zero := by
  have h0 : 5 * k % 5 = 0 := by omega
  have h5 : ¬ (5 * k < 5) := by omega
  simp only [slotAfter, h0, Nat.not_lt_zero, if_false, h5, reading]
  congr 2
  omega

/-! ### The steady-state loop: claims C1 to C5 -/

/-- C1: from the initial globals, for every k >= 1 the k-th execution of
`loop()` advances the cursor to `MAX_BUFFER_SIZE` (signals Full) exactly when
k is a multiple of `MAX_BUFFER_SIZE`, and its trace contains the transmission
of `report()` exactly in that case. -/
theorem C1_report_iff_multiple_of_capacity (envs : Nat → TickEnv) (k : Nat) (hk : 1 ≤ k) :
    ∃ g g1 trace,
      runTicks envs (k - 1) = some g ∧
      loop_record AHT_ENABLED (envs k) g = some g1 ∧
      tickEffects envs k = some trace ∧
      (g1.sensor_buffer_count = MAX_BUFFER_SIZE ↔ (k : Int) % MAX_BUFFER_SIZE = 0) ∧
      (invokesReport trace = true ↔ (k : Int) % MAX_BUFFER_SIZE = 0) := by
  obtain ⟨n, rfl⟩ : ∃ n, k = n + 1 := ⟨k - 1, by omega⟩
  have hb := globalsAfter_bounds envs n
  obtain ⟨tr, h1, h2⟩ := tickEffects_posts envs n
  refine ⟨globalsAfter envs n, _, tr, runTicks_globalsAfter envs n,
    loop_record_some _ _ _ hb.1 hb.2, h1, ?_, ?_⟩
  · simp only [globalsAfter, MAX_BUFFER_SIZE]
    omega
  · rw [invokesReport_iff, h2]
    simp only [MAX_BUFFER_SIZE]
    by_cases h : (n + 1) % 5 = 0
    · rw [if_pos h]
      simp only [ne_eq, List.cons_ne_nil, not_false_eq_true, true_iff]
      omega
    · rw [if_neg h]
      simp only [ne_eq, not_true_eq_false, false_iff]
      omega

/-- Witness for C1: the fifth tick of the sample run reports. -/
theorem C1_report_iff_multiple_of_capacity_witness :
    ∃ trace, tickEffects sampleEnvs 5 = some trace ∧ invokesReport trace = true := by
  obtain ⟨_, _, trace, _, _, h3, _, h5⟩ :=
    C1_report_iff_multiple_of_capacity sampleEnvs 5 (by decide)
  exact ⟨trace, h3, h5.2 (by decide)⟩

/-- C4: at the start and at the end of every execution of `loop()` in a run
from the initial globals the cursor satisfies `0 <= sensor_buffer_count <
MAX_BUFFER_SIZE`, the buffer has `MAX_BUFFER_SIZE` elements, and therefore the
slot access of the next tick is in bounds (the tick is defined). -/
theorem C4_cursor_within_bounds (envs : Nat → TickEnv) (n : Nat) :
    ∃ g, runTicks envs n = some g ∧
      0 ≤ g.sensor_buffer_count ∧ g.sensor_buffer_count < MAX_BUFFER_SIZE ∧
      g.sensor_buffer.length = MAX_BUFFER_SIZE.toNat ∧
      g.sensor_buffer_count.toNat < g.sensor_buffer.length ∧
      (loop_record AHT_ENABLED (envs (n + 1)) g).isSome = true ∧
      (loop (envs (n + 1)) g).isSome = true := by
  have hb := globalsAfter_bounds envs n
  have hr : n % 5 < 5 := Nat.mod_lt _ (by norm_num)
  refine ⟨globalsAfter envs n, runTicks_globalsAfter envs n, hb.1, ?_, rfl, ?_, ?_, ?_⟩
  · simp only [globalsAfter, MAX_BUFFER_SIZE]; omega
  · simp only [globalsAfter, List.length_cons, List.length_nil, Int.toNat_ofNat]; omega
  · rw [loop_record_some _ _ _ hb.1 hb.2]; rfl
  · have h := loopWith_fst AHT_ENABLED DEBUG (envs (n + 1)) _ hb.1 hb.2
    unfold loop
    cases hl : loopWith AHT_ENABLED DEBUG (envs (n + 1)) (globalsAfter envs n) with
    | none => rw [hl] at h; simp at h
    | some v => rfl

/-- C2: in every run from the initial globals and for every k >= 1, `report()`
is entered for the k-th time in tick `5 * k`; at that moment slot i of
`sensor_buffer` holds what tick `5 * (k - 1) + i + 1` captured (its time, and
the sensor values as far as `loop()` stores them), and the k-th posted
document carries exactly one `data` element per slot, in index order, so five
elements in capture order. -/
theorem C2_batch_in_capture_order (envs : Nat → TickEnv) (k n : Nat) (hk : 1 ≤ k)
    (hn : 5 * k ≤ n) :
    ∃ g g1 all doc,
      runTicks envs (5 * k - 1) = some g ∧
      loop_record AHT_ENABLED (envs (5 * k)) g = some g1 ∧
      g1.sensor_buffer_count = MAX_BUFFER_SIZE ∧
      (∀ i, i < 5 → (loop_reset g1).sensor_buffer[i]? =
        some (capture AHT_ENABLED (envs (5 * (k - 1) + i + 1)) SensorData.zero)) ∧
      (∀ i, i < 5 → ((loop_reset g1).sensor_buffer.getD i SensorData.zero).time =
        (envs (5 * (k - 1) + i + 1)).now) ∧
      runEffects envs n = some all ∧
      (postedDocuments all)[k - 1]? = some doc ∧
      doc = report_document (envs (5 * k)).macAddress (loop_reset g1) ∧
      doc.data.length = 5 ∧
      (∀ i, i < 5 → doc.data[i]? = ((loop_reset g1).sensor_buffer[i]?).map report_item) := by
  obtain ⟨m, hm⟩ : ∃ m, 5 * k = m + 1 := ⟨5 * k - 1, by omega⟩
  have hb := globalsAfter_bounds envs m
  obtain ⟨all, ha, hp⟩ := runEffects_posts envs n
  obtain ⟨g1, hrec, hg1⟩ : ∃ g1, loop_record AHT_ENABLED (envs (m + 1)) (globalsAfter envs m)
      = some g1 ∧ g1 =
      { sensor_buffer := (globalsAfter envs m).sensor_buffer.set
          (globalsAfter envs m).sensor_buffer_count.toNat
          (capture AHT_ENABLED (envs (m + 1))
            ((globalsAfter envs m).sensor_buffer.getD
              (globalsAfter envs m).sensor_buffer_count.toNat SensorData.zero)),
        sensor_buffer_count := (globalsAfter envs m).sensor_buffer_count + 1 } :=
    ⟨_, loop_record_some _ _ _ hb.1 hb.2, rfl⟩
  have hc : (globalsAfter envs m).sensor_buffer_count + 1 = MAX_BUFFER_SIZE := by
    simp only [globalsAfter, MAX_BUFFER_SIZE]; omega
  have hreset : loop_reset g1 = globalsAfter envs (5 * k) := by
    rw [hm, ← afterTick_globalsAfter, hg1]
    simp only [loop_reset, afterTick, hc, if_true]
  have hslots : ∀ i, i < 5 → (globalsAfter envs (5 * k)).sensor_buffer[i]? =
      some (capture AHT_ENABLED (envs (5 * (k - 1) + i + 1)) SensorData.zero) := by
    intro i hi
    have h0 := slotAfter_batch envs k 0 hk
    have h1 := slotAfter_batch envs k 1 hk
    have h2 := slotAfter_batch envs k 2 hk
    have h3 := slotAfter_batch envs k 3 hk
    have h4 := slotAfter_batch envs k 4 hk
    simp only [globalsAfter, h0, h1, h2, h3, h4]
    interval_cases i <;> rfl
  refine ⟨globalsAfter envs m, g1, all, _, ?_, ?_, ?_, ?_, ?_, ha, ?_, rfl, ?_, ?_⟩
  · rw [show 5 * k - 1 = m by omega]; exact runTicks_globalsAfter envs m
  · rw [hm]; exact hrec
  · rw [hg1]; exact hc
  · rw [hreset]; exact hslots
  · rw [hreset]
    intro i hi
    have h := hslots i hi
    rw [List.getD_eq_getElem?_getD, h]
    cases AHT_ENABLED <;> rfl
  · rw [hp, hreset, List.getElem?_map, List.getElem?_range (by omega)]
    simp only [Option.map_some']
    rw [show k - 1 + 1 = k by omega]
  · rw [report_document_data, hreset]
    rfl
  · intro i _
    rw [report_document_data, List.getElem?_map]

/-- Witness for C2: in twelve ticks of the sample run the second posted document
has five entries and starts with the reading of tick 6. -/
theorem C2_batch_in_capture_order_witness :
    ∃ all doc, runEffects sampleEnvs 12 = some all ∧
      (postedDocuments all)[1]? = some doc ∧ doc.data.length = 5 ∧
      doc.data[0]? = some (report_item (capture AHT_ENABLED (sampleEnvs 6) SensorData.zero)) := by
  obtain ⟨_, g1, all, doc, _, _, _, h4, _, h6, h7, h8, h9, h10⟩ :=
    C2_batch_in_capture_order sampleEnvs 2 12 (by decide) (by decide)
  refine ⟨all, doc, h6, h7, h9, ?_⟩
  rw [h10 0 (by decide), h4 0 (by decide)]
  rfl

/-- The one document posted by the first five ticks of the sample run: five
entries in capture order, every temperature and humidity still zero although
the sample sensor would deliver 20.0 C and 50.0 %. -/
theorem sample_run_first_report :
    (runEffects sampleEnvs 5).map postedDocuments = some
      [{ deviceAddress := "5C:CF:7F:00:00:01",
         data := [
           { temperature := 0, humidity := 0, time := some "2023-11-14T22:13:25Z" },
           { temperature := 0, humidity := 0, time := some "2023-11-14T22:13:30Z" },
           { temperature := 0, humidity := 0, time := some "2023-11-14T22:13:35Z" },
           { temperature := 0, humidity := 0, time := some "2023-11-14T22:13:40Z" },
           { temperature := 0, humidity := 0, time := some "2023-11-14T22:13:45Z" }] }] := by
  decide

theorem wellSized_cases (g : Globals) (hw : g.WellSized) :
    ∃ a b c d e, g.sensor_buffer = [a, b, c, d, e] := by
  unfold Globals.WellSized at hw
  match hl : g.sensor_buffer, hw with
  | [a, b, c, d, e], _ => exact ⟨a, b, c, d, e, rfl⟩

/-- C3: whatever status code the transmission inside `report()` returns
(negative transport errors included), a tick that fills the buffer completes
with the cursor at 0 and with globals that do not depend on that code; the
next tick completes as well, stores its reading in slot 0 (replacing the
first reading of the previous batch) and leaves slots 1 to 4 unchanged. -/
theorem C3_reset_regardless_of_transmission (env env2 : TickEnv) (code : Int) (g : Globals)
    (hw : g.WellSized) (hc : g.sensor_buffer_count = MAX_BUFFER_SIZE - 1) :
    ∃ g1 tr1 g2 tr2,
      loop { env with httpStatusCode := code } g = some (g1, tr1) ∧
      invokesReport tr1 = true ∧
      g1.sensor_buffer_count = 0 ∧
      (loop env g).map Prod.fst = some g1 ∧
      loop env2 g1 = some (g2, tr2) ∧
      g2.sensor_buffer[0]? =
        some (capture AHT_ENABLED env2 (g1.sensor_buffer.getD 0 SensorData.zero)) ∧
      (g2.sensor_buffer.getD 0 SensorData.zero).time = env2.now ∧
      (∀ i, 1 ≤ i → g2.sensor_buffer[i]? = g1.sensor_buffer[i]?) ∧
      g2.sensor_buffer_count = 1 := by
  obtain ⟨a, b, c, d, e, hbuf⟩ := wellSized_cases g hw
  obtain ⟨buf, cnt⟩ := g
  simp only at hbuf hc
  subst hbuf hc
  refine ⟨_, _, _, _, rfl, ?_, rfl, rfl, rfl, rfl, ?_, ?_, rfl⟩
  · simp [invokesReport, report, led, DEBUG]
  · cases AHT_ENABLED <;> rfl
  · intro i hi
    obtain ⟨j, rfl⟩ : ∃ j, i = j + 1 := ⟨i - 1, by omega⟩
    rfl

/-- Witness for C3: with a transport error as POST result the filling tick still
ends with the cursor at 0. -/
theorem C3_reset_regardless_of_transmission_witness :
    ∃ g1 tr1, loop { sampleEnv 1700000025 with httpStatusCode := -11 }
        { sensor_buffer := List.replicate 5 SensorData.zero, sensor_buffer_count := 4 }
        = some (g1, tr1) ∧ g1.sensor_buffer_count = 0 := by
  obtain ⟨g1, tr1, _, _, h1, _, h3, _⟩ :=
    C3_reset_regardless_of_transmission (sampleEnv 1700000025) (sampleEnv 1700000030) (-11)
      { sensor_buffer := List.replicate 5 SensorData.zero, sensor_buffer_count := 4 }
      (by decide) (by decide)
  exact ⟨g1, tr1, h1, h3⟩

/-- C5, counterexample: the first tick from the initial globals, with a sensor
that would report 20.0 C and 50.0 %, stores the time but leaves temperature
and humidity of slot 0 at their initial zero, because `AHT_ENABLED` is
`false`. -/
theorem C5_counterexample_sensor_values_not_stored :
    ∃ g tr, loop (sampleEnv 1700000005) Globals.init = some (g, tr) ∧
      g.sensor_buffer[0]? = some { temperature := 0, humidity := 0, time := 1700000005 } ∧
      g.sensor_buffer[0]? ≠
        some { temperature := (sampleEnv 1700000005).event.temperature,
               humidity := (sampleEnv 1700000005).event.relative_humidity,
               time := (sampleEnv 1700000005).now } :=
  ⟨_, _, rfl, rfl, by decide⟩

/-- C5, amended: in each tick of `loop()` the slot at the cursor receives the
current absolute time; temperature and humidity are taken from the sensor only
when `AHT_ENABLED` is set, and as compiled (`AHT_ENABLED` is `false`) they keep
the values the slot had before the tick. -/
theorem C5_slot_fields_stored_by_tick (env : TickEnv) (g : Globals)
    (h0 : 0 ≤ g.sensor_buffer_count) (h1 : g.sensor_buffer_count < g.sensor_buffer.length) :
    (∃ g1 tr old new,
      loop env g = some (g1, tr) ∧
      g.sensor_buffer[g.sensor_buffer_count.toNat]? = some old ∧
      g1.sensor_buffer[g.sensor_buffer_count.toNat]? = some new ∧
      new.time = env.now ∧ new.temperature = old.temperature ∧ new.humidity = old.humidity) ∧
    (∀ dbg, ∃ g1 tr new,
      loopWith true dbg env g = some (g1, tr) ∧
      g1.sensor_buffer[g.sensor_buffer_count.toNat]? = some new ∧
      new = { temperature := env.event.temperature,
              humidity := env.event.relative_humidity,
              time := env.now }) := by
  have hlt : g.sensor_buffer_count.toNat < g.sensor_buffer.length := by omega
  have hold : g.sensor_buffer[g.sensor_buffer_count.toNat]? =
      some (g.sensor_buffer.getD g.sensor_buffer_count.toNat SensorData.zero) := by
    rw [List.getD_eq_getElem?_getD, List.getElem?_eq_getElem hlt]
    rfl
  have hnew : ∀ aht, (afterTick aht env g).sensor_buffer[g.sensor_buffer_count.toNat]? =
      some (capture aht env (g.sensor_buffer.getD g.sensor_buffer_count.toNat
        SensorData.zero)) := by
    intro aht
    simp only [afterTick]
    rw [List.getElem?_set_self hlt]
  have hsome : ∀ aht dbg, ∃ tr, loopWith aht dbg env g = some (afterTick aht env g, tr) := by
    intro aht dbg
    have h := loopWith_fst aht dbg env g h0 h1
    cases hl : loopWith aht dbg env g with
    | none => rw [hl] at h; simp at h
    | some v =>
      rw [hl] at h
      simp only [Option.map_some', Option.some.injEq] at h
      exact ⟨v.2, by rw [← h]⟩
  constructor
  · obtain ⟨tr, htr⟩ := hsome AHT_ENABLED DEBUG
    exact ⟨_, tr, _, _, htr, hold, hnew AHT_ENABLED, rfl, rfl, rfl⟩
  · intro dbg
    obtain ⟨tr, htr⟩ := hsome true dbg
    exact ⟨_, tr, _, htr, hnew true, rfl⟩

/-- Witness for C5 as amended: the first tick of the sample run stores its time
in slot 0. -/
theorem C5_slot_fields_stored_by_tick_witness :
    ∃ g1 tr new, loop (sampleEnv 1700000005) Globals.init = some (g1, tr) ∧
      g1.sensor_buffer[0]? = some new ∧ new.time = 1700000005 := by
  obtain ⟨⟨g1, tr, _, new, h1, _, h3, h4, _⟩, _⟩ :=
    C5_slot_fields_stored_by_tick (sampleEnv 1700000005) Globals.init (by decide) (by decide)
  exact ⟨g1, tr, new, h1, h3, h4⟩

/-! ### The order of statements in a filling tick: claim C10 -/

theorem stepEffects_append (a b : List Step) :
    stepEffects (a ++ b) = stepEffects a ++ stepEffects b := by
  simp [stepEffects]

theorem stepEffects_map_effect (es : List Effect) :
    stepEffects (es.map Step.effect) = es := by
  induction es with
  | nil => rfl
  | cons e t ih =>
    simp only [List.map_cons, stepEffects, List.filterMap_cons] at ih ⊢
    rw [ih]

theorem getD_set_self (l : List SensorData) (i : Nat) (a : SensorData) (h : i < l.length) :
    (l.set i a).getD i SensorData.zero = a := by
  rw [List.getD_eq_getElem?_getD, List.getElem?_set_self h]
  rfl

theorem stored_fields_eq_capture (aht : Bool) (env : TickEnv) (g : Globals) (i : Nat)
    (h : i < g.sensor_buffer.length) :
    (if aht then
        exec_store_temperature i env.event.temperature
          (exec_store_humidity i env.event.relative_humidity
            (exec_store_time i env.now ⟨g, []⟩))
      else exec_store_time i env.now ⟨g, []⟩).globals
      = { sensor_buffer := g.sensor_buffer.set i
            (capture aht env (g.sensor_buffer.getD i SensorData.zero)),
          sensor_buffer_count := g.sensor_buffer_count } := by
  cases aht
  · rfl
  · simp only [if_true, exec_store_temperature, exec_store_humidity, exec_store_time, capture]
    rw [getD_set_self _ _ _ h, List.set_set, getD_set_self _ _ _ (by simpa using h),
      List.set_set]

theorem stepEffects_cons (s : Step) (t : List Step) :
    stepEffects (s :: t) =
      (match s with
        | Step.effect e => [e]
        | _ => []) ++ stepEffects t := by
  cases s <;> rfl

theorem loop_steps_refines (aht dbg : Bool) (env : TickEnv) (g : Globals) :
    (loop_steps aht dbg env g).map (fun r => (r.1, stepEffects r.2)) = loopWith aht dbg env g := by
  unfold loop_steps loopWith loop_record
  by_cases hb : 0 ≤ g.sensor_buffer_count ∧ g.sensor_buffer_count < g.sensor_buffer.length
  · have hlt : g.sensor_buffer_count.toNat < g.sensor_buffer.length := by omega
    have hlt2 : ∀ a, g.sensor_buffer_count.toNat
        < (g.sensor_buffer.set g.sensor_buffer_count.toNat a).length := by
      intro a; rw [List.length_set]; exact hlt
    rw [if_pos hb, if_pos hb]
    by_cases hf : g.sensor_buffer_count + 1 = MAX_BUFFER_SIZE
    · cases aht <;> cases dbg <;>
        simp [exec_store_time, exec_store_humidity, exec_store_temperature, exec_store_count,
          exec_emit, exec_report, loop_reset, capture, hf, stepEffects_append,
          stepEffects_map_effect, stepEffects_cons, getD_set_self, hlt, hlt2, List.set_set] <;>
        rfl
    · cases aht <;> cases dbg <;>
        simp [exec_store_time, exec_store_humidity, exec_store_temperature, exec_store_count,
          exec_emit, exec_report, loop_reset, capture, hf, stepEffects_append,
          stepEffects_map_effect, stepEffects_cons, getD_set_self, hlt, hlt2, List.set_set] <;>
        rfl
  · rw [if_neg hb, if_neg hb]
    rfl

theorem countStores_map_effect (es : List Effect) :
    countStores (es.map Step.effect) = [] := by
  induction es with
  | nil => rfl
  | cons e t ih =>
    simp only [List.map_cons, countStores, List.filterMap_cons] at ih ⊢
    exact ih

theorem reportEntries_map_effect (es : List Effect) :
    reportEntries (es.map Step.effect) = [] := by
  induction es with
  | nil => rfl
  | cons e t ih =>
    simp only [List.map_cons, reportEntries, List.filterMap_cons] at ih ⊢
    exact ih

theorem reportEntries_append (a b : List Step) :
    reportEntries (a ++ b) = reportEntries a ++ reportEntries b := by
  simp [reportEntries]

theorem stepsAfterReport_map_effect (es : List Effect) (rest : List Step) :
    stepsAfterReport (es.map Step.effect ++ Step.leave_report :: rest) = rest := by
  induction es with
  | nil => rfl
  | cons e t ih =>
    simp only [stepsAfterReport, List.map_cons, List.cons_append, List.dropWhile_cons] at ih ⊢
    exact ih

theorem stepsAfterReport_cons_ne (s : Step) (t : List Step) (h : s ≠ Step.leave_report) :
    stepsAfterReport (s :: t) = stepsAfterReport t := by
  cases s <;> first | rfl | exact absurd rfl h

/-- C10, counterexample: in a tick that fills the buffer (cursor 4 before the
tick) the statements run in the order increment to 5, reset to 0, call of
`report()`: the globals recorded at the entry into `report()` have the cursor
at 0, not at `MAX_BUFFER_SIZE`, both assignments to the cursor precede the
entry, and no assignment to it follows the return. -/
theorem C10_counterexample_reset_precedes_report :
    ∃ g2 steps,
      loop_steps AHT_ENABLED DEBUG (sampleEnv 1700000025)
        { sensor_buffer := List.replicate 5 SensorData.zero, sensor_buffer_count := 4 }
        = some (g2, steps) ∧
      reportEntries steps =
        [{ sensor_buffer := [SensorData.zero, SensorData.zero, SensorData.zero,
             SensorData.zero, { temperature := 0, humidity := 0, time := 1700000025 }],
           sensor_buffer_count := 0 }] ∧
      countStores (stepsBeforeReport steps) = [5, 0] ∧
      countStores (stepsAfterReport steps) = [] ∧
      ¬ (∀ entry, entry ∈ reportEntries steps →
          entry.sensor_buffer_count = MAX_BUFFER_SIZE) :=
  ⟨_, _, rfl, by decide, by decide, by decide, by decide⟩

/-- C10, amended: in every tick of `loop()` that fills the buffer the cursor is
reset to 0 before `report()` is invoked.  The statements run in the order:
store the time in slot 4, advance the cursor to `MAX_BUFFER_SIZE`, print,
`led(true)`, assign 0 to the cursor, enter `report()`; the globals at that
entry have the cursor at 0 and the just-filled buffer, which is what gets
posted; no assignment to the cursor follows the return, and the tick ends with
the cursor still 0.  The effects among these steps are the trace of `loop()`. -/
theorem C10_reset_then_report (env : TickEnv) (g : Globals)
    (hw : g.WellSized) (hc : g.sensor_buffer_count = MAX_BUFFER_SIZE - 1) :
    ∃ g2 steps,
      loop_steps AHT_ENABLED DEBUG env g = some (g2, steps) ∧
      loop env g = some (g2, stepEffects steps) ∧
      steps =
        [Step.store_time 4 env.now, Step.store_count MAX_BUFFER_SIZE,
          Step.effect (Effect.serial_println "Send data")]
        ++ (led true).map Step.effect
        ++ [Step.store_count 0, Step.enter_report g2]
        ++ (report DEBUG env g2).map Step.effect
        ++ [Step.leave_report]
        ++ (led false
            ++ log_temperature env.availableForWrite (g2.sensor_buffer.getD 4 SensorData.zero)
            ++ print_debug env.freeHeap ++ [Effect.delay 5000]).map Step.effect ∧
      reportEntries steps = [g2] ∧
      g2.sensor_buffer_count = 0 ∧
      g2.sensor_buffer = g.sensor_buffer.set 4
        (capture AHT_ENABLED env (g.sensor_buffer.getD 4 SensorData.zero)) ∧
      countStores (stepsBeforeReport steps) = [MAX_BUFFER_SIZE, 0] ∧
      countStores (stepsAfterReport steps) = [] ∧
      postedDocuments (stepEffects steps)
        = [{ deviceAddress := env.macAddress, data := g2.sensor_buffer.map report_item }] := by
  obtain ⟨a, b, c, d, e, hbuf⟩ := wellSized_cases g hw
  obtain ⟨buf, cnt⟩ := g
  simp only at hbuf hc
  subst hbuf hc
  have hsteps : loop_steps AHT_ENABLED DEBUG env
      { sensor_buffer := [a, b, c, d, e], sensor_buffer_count := MAX_BUFFER_SIZE - 1 }
      = some ({ sensor_buffer := [a, b, c, d, capture AHT_ENABLED env e],
                sensor_buffer_count := 0 },
        [Step.store_time 4 env.now, Step.store_count MAX_BUFFER_SIZE,
          Step.effect (Effect.serial_println "Send data")]
        ++ (led true).map Step.effect
        ++ [Step.store_count 0,
            Step.enter_report { sensor_buffer := [a, b, c, d, capture AHT_ENABLED env e],
                                sensor_buffer_count := 0 }]
        ++ (report DEBUG env { sensor_buffer := [a, b, c, d, capture AHT_ENABLED env e],
                               sensor_buffer_count := 0 }).map Step.effect
        ++ [Step.leave_report]
        ++ (led false
            ++ log_temperature env.availableForWrite (capture AHT_ENABLED env e)
            ++ print_debug env.freeHeap ++ [Effect.delay 5000]).map Step.effect) := by
    simp [loop_steps, exec_store_time, exec_store_count, exec_emit, exec_report,
      MAX_BUFFER_SIZE, AHT_ENABLED, DEBUG, capture]
  have href := loop_steps_refines AHT_ENABLED DEBUG env
    { sensor_buffer := [a, b, c, d, e], sensor_buffer_count := MAX_BUFFER_SIZE - 1 }
  rw [hsteps] at href
  refine ⟨_, _, hsteps, href.symm, rfl, ?_, rfl, rfl, ?_, ?_, ?_⟩
  · simp only [reportEntries_append, reportEntries_map_effect, List.append_nil]
    rfl
  · rfl
  · simp only [List.append_assoc, List.cons_append, List.nil_append, led, List.map_cons,
      List.map_nil]
    rw [stepsAfterReport_cons_ne _ _ (by simp), stepsAfterReport_cons_ne _ _ (by simp),
      stepsAfterReport_cons_ne _ _ (by simp), stepsAfterReport_cons_ne _ _ (by simp),
      stepsAfterReport_cons_ne _ _ (by simp), stepsAfterReport_cons_ne _ _ (by simp),
      stepsAfterReport_map_effect]
    exact countStores_map_effect
      (Effect.digitalWrite STATUS_LED_PIN PinLevel.HIGH ::
        (log_temperature env.availableForWrite (capture AHT_ENABLED env e)
          ++ (print_debug env.freeHeap ++ [Effect.delay 5000])))
  · obtain ⟨tr, h1, h2⟩ := loop_posts env
      { sensor_buffer := [a, b, c, d, e], sensor_buffer_count := MAX_BUFFER_SIZE - 1 }
      (show (0 : Int) ≤ MAX_BUFFER_SIZE - 1 by decide)
      (show MAX_BUFFER_SIZE - 1 < ((5 : Nat) : Int) by decide)
    unfold loop at h1
    rw [← href] at h1
    simp only [Option.map_some', Option.some.injEq] at h1
    rw [h1, h2, if_pos (show MAX_BUFFER_SIZE - 1 + 1 = MAX_BUFFER_SIZE by decide)]
    rfl

/-- Witness for C10 as amended: a filling tick of the sample run enters `report()`
once, with the cursor at 0. -/
theorem C10_reset_then_report_witness :
    ∃ g2 steps, loop_steps AHT_ENABLED DEBUG (sampleEnv 1700000025)
        { sensor_buffer := List.replicate 5 SensorData.zero, sensor_buffer_count := 4 }
        = some (g2, steps) ∧ reportEntries steps = [g2] ∧ g2.sensor_buffer_count = 0 := by
  obtain ⟨g2, steps, h1, _, _, h4, h5, _⟩ :=
    C10_reset_then_report (sampleEnv 1700000025)
      { sensor_buffer := List.replicate 5 SensorData.zero, sensor_buffer_count := 4 }
      (by decide) (by decide)
  exact ⟨g2, steps, h1, h4, h5⟩

/-! ### Time synchronisation: claim C7 -/

theorem setup_ntp_wait_complete (clock : Nat → Int) (fuel : Nat) :
    ∀ k n, k ≤ n → n - k < fuel → 1500000000 ≤ clock n →
      (∀ j, k ≤ j → j < n → clock j < 1500000000) →
      setup_ntp_wait clock fuel k = some (List.replicate (n - k) (Effect.delay 500), n + 1) := by
  induction fuel with
  | zero => intro k n _ h; omega
  | succ fuel ih =>
    intro k n hkn hf hn hlow
    by_cases hk : k = n
    · subst hk
      have h : ¬ clock k < 1500000000 := by omega
      simp only [setup_ntp_wait, h, if_false, Nat.sub_self, List.replicate_zero]
    · have hlt : clock k < 1500000000 := hlow k (le_refl _) (by omega)
      have h := ih (k + 1) n (by omega) (by omega) hn (fun j hj1 hj2 => hlow j (by omega) hj2)
      simp only [setup_ntp_wait, hlt, if_true, h]
      rw [show n - k = (n - (k + 1)) + 1 by omega, List.replicate_succ]

theorem setup_ntp_wait_sound (clock : Nat → Int) (fuel : Nat) :
    ∀ k effects polls, setup_ntp_wait clock fuel k = some (effects, polls) →
      k < polls ∧ 1500000000 ≤ clock (polls - 1) ∧
        ∀ j, k ≤ j → j < polls - 1 → clock j < 1500000000 := by
  induction fuel with
  | zero => intro k effects polls h; simp [setup_ntp_wait] at h
  | succ fuel ih =>
    intro k effects polls h
    by_cases hlt : clock k < 1500000000
    · simp only [setup_ntp_wait, hlt, if_true] at h
      cases hw : setup_ntp_wait clock fuel (k + 1) with
      | none => rw [hw] at h; simp at h
      | some r =>
        obtain ⟨e2, p2⟩ := r
        rw [hw] at h
        simp only [Option.some.injEq, Prod.mk.injEq] at h
        obtain ⟨h1, h2, h3⟩ := ih (k + 1) e2 p2 hw
        rw [← h.2]
        refine ⟨by omega, h2, ?_⟩
        intro j hj1 hj2
        by_cases hjk : j = k
        · rw [hjk]; exact hlt
        · exact h3 j (by omega) hj2
    · simp only [setup_ntp_wait, hlt, if_false, Option.some.injEq, Prod.mk.injEq] at h
      rw [← h.2]
      refine ⟨by omega, by simp only [Nat.add_sub_cancel]; omega, ?_⟩
      intro j hj1 hj2
      simp only [Nat.add_sub_cancel] at hj2
      omega

theorem setup_ntp_wait_never (clock : Nat → Int) (hlow : ∀ j, clock j < 1500000000)
    (fuel : Nat) : ∀ k, setup_ntp_wait clock fuel k = none := by
  induction fuel with
  | zero => intro k; rfl
  | succ fuel ih =>
    intro k
    simp only [setup_ntp_wait, hlow k, if_true, ih (k + 1)]

theorem setup_ntp_returns (clock : Nat → Int) (n fuel : Nat) (hn : 1500000000 ≤ clock n)
    (hlow : ∀ j, j < n → clock j < 1500000000) (hf : n < fuel) :
    setup_ntp clock fuel = some
      ([Effect.configTime TIMEZONE "pool.ntp.org"] ++ List.replicate n (Effect.delay 500)
        ++ [Effect.serial_println "Time set"], n + 1) := by
  have h := setup_ntp_wait_complete clock fuel 0 n (Nat.zero_le _) (by omega) hn
    (fun j _ hj => hlow j hj)
  simp only [setup_ntp, h, Nat.sub_zero]

/-- C7: for every sequence of clock values seen by the polls of `setup_ntp()`,
the call returns at poll `n` (having made `n + 1` polls) for some fuel exactly
when poll `n` is the first whose value is not below 1500000000; with enough
fuel it does return there, after one 500 ms delay per earlier poll; and when
every poll is below the floor it never returns, whatever the fuel. -/
theorem C7_time_sync_waits_for_floor (clock : Nat → Int) :
    (∀ n, (∃ fuel effects, setup_ntp clock fuel = some (effects, n + 1)) ↔
      (1500000000 ≤ clock n ∧ ∀ j, j < n → clock j < 1500000000)) ∧
    (∀ n fuel, 1500000000 ≤ clock n → (∀ j, j < n → clock j < 1500000000) → n < fuel →
      setup_ntp clock fuel = some
        ([Effect.configTime TIMEZONE "pool.ntp.org"] ++ List.replicate n (Effect.delay 500)
          ++ [Effect.serial_println "Time set"], n + 1)) ∧
    ((∀ j, clock j < 1500000000) → ∀ fuel, setup_ntp clock fuel = none) := by
  refine ⟨?_, fun n fuel hn hlow hf => setup_ntp_returns clock n fuel hn hlow hf, ?_⟩
  · intro n
    constructor
    · rintro ⟨fuel, effects, h⟩
      unfold setup_ntp at h
      cases hw : setup_ntp_wait clock fuel 0 with
      | none => rw [hw] at h; simp at h
      | some r =>
        obtain ⟨e2, p2⟩ := r
        rw [hw] at h
        simp only [Option.some.injEq, Prod.mk.injEq] at h
        obtain ⟨_, h2, h3⟩ := setup_ntp_wait_sound clock fuel 0 e2 p2 hw
        rw [h.2] at h2 h3
        simp only [Nat.add_sub_cancel] at h2 h3
        exact ⟨h2, fun j hj => h3 j (Nat.zero_le _) hj⟩
    · rintro ⟨hn, hlow⟩
      exact ⟨n + 1, _, setup_ntp_returns clock n (n + 1) hn hlow (by omega)⟩
  · intro hlow fuel
    simp only [setup_ntp, setup_ntp_wait_never clock hlow fuel 0]

/-- Witness for C7: with the sample clock the wait ends at the fourth poll, after
three delays. -/
theorem C7_time_sync_waits_for_floor_witness :
    setup_ntp sampleClock 10 = some
      ([Effect.configTime TIMEZONE "pool.ntp.org"] ++ List.replicate 3 (Effect.delay 500)
        ++ [Effect.serial_println "Time set"], 4) :=
  (C7_time_sync_waits_for_floor sampleClock).2.1 3 10 (by decide)
    (by intro j hj; interval_cases j <;> decide) (by decide)

/-! ### Connectivity, boot sequence and busy indicator: claims C8 and C9 -/

theorem ledWrites_append (a b : List Effect) :
    ledWrites (a ++ b) = ledWrites a ++ ledWrites b := by
  simp [ledWrites]

theorem ledWrites_setup_ntp_wait (clock : Nat → Int) (fuel : Nat) :
    ∀ k effects polls, setup_ntp_wait clock fuel k = some (effects, polls) →
      ledWrites effects = [] := by
  induction fuel with
  | zero => intro k effects polls h; simp [setup_ntp_wait] at h
  | succ fuel ih =>
    intro k effects polls h
    by_cases hlt : clock k < 1500000000
    · simp only [setup_ntp_wait, hlt, if_true] at h
      cases hw : setup_ntp_wait clock fuel (k + 1) with
      | none => rw [hw] at h; simp at h
      | some r =>
        obtain ⟨e2, p2⟩ := r
        rw [hw] at h
        simp only [Option.some.injEq, Prod.mk.injEq] at h
        rw [← h.1]
        have := ih (k + 1) e2 p2 hw
        simpa [ledWrites] using this
    · simp only [setup_ntp_wait, hlt, if_false, Option.some.injEq, Prod.mk.injEq] at h
      rw [← h.1]
      rfl

theorem ledWrites_setup_ntp (clock : Nat → Int) (fuel : Nat) (effects : List Effect)
    (polls : Nat) (h : setup_ntp clock fuel = some (effects, polls)) :
    ledWrites effects = [] := by
  unfold setup_ntp at h
  cases hw : setup_ntp_wait clock fuel 0 with
  | none => rw [hw] at h; simp at h
  | some r =>
    obtain ⟨e2, p2⟩ := r
    rw [hw] at h
    simp only [Option.some.injEq, Prod.mk.injEq] at h
    rw [← h.1, ledWrites_append, ledWrites_append, ledWrites_setup_ntp_wait clock fuel 0 e2 p2 hw]
    rfl

theorem ledWrites_wifi_wait (status : Nat → wl_status_t) (fuel : Nat) :
    ∀ k effects polls, wifi_wait status fuel k = some (effects, polls) →
      ledWrites effects = [] := by
  induction fuel with
  | zero => intro k effects polls h; simp [wifi_wait] at h
  | succ fuel ih =>
    intro k effects polls h
    by_cases hc : status k = wl_status_t.WL_CONNECTED
    · simp only [wifi_wait, hc, ne_eq, not_true_eq_false, if_false, Option.some.injEq,
        Prod.mk.injEq] at h
      rw [← h.1]
      rfl
    · simp only [wifi_wait, hc, ne_eq, not_false_eq_true, if_true] at h
      cases hw : wifi_wait status fuel (k + 2) with
      | none => rw [hw] at h; simp at h
      | some r =>
        obtain ⟨e2, p2⟩ := r
        rw [hw] at h
        simp only [Option.some.injEq, Prod.mk.injEq] at h
        rw [← h.1, ledWrites_append, ledWrites_append, ih (k + 2) e2 p2 hw]
        split_ifs <;> rfl

theorem ledWrites_wifi_connect (status : Nat → wl_status_t) (ip : String) (fuel k : Nat)
    (effects : List Effect) (polls : Nat)
    (h : wifi_connect status ip fuel k = some (effects, polls)) :
    ledWrites effects = [] := by
  unfold wifi_connect at h
  by_cases hc : status k = wl_status_t.WL_CONNECTED
  · simp only [hc, if_true, Option.some.injEq, Prod.mk.injEq] at h
    rw [← h.1]
    rfl
  · simp only [hc, if_false] at h
    cases hw : wifi_wait status fuel (k + 1) with
    | none => rw [hw] at h; simp at h
    | some r =>
      obtain ⟨e2, p2⟩ := r
      rw [hw] at h
      simp only [Option.some.injEq, Prod.mk.injEq] at h
      rw [← h.1, ledWrites_append, ledWrites_append, ledWrites_wifi_wait status fuel (k + 1) e2 p2 hw]
      rfl

theorem wifi_wait_progress (status : Nat → wl_status_t) (N : Nat)
    (hN : ∀ i, N ≤ i → status i = wl_status_t.WL_CONNECTED) (fuel : Nat) :
    ∀ k, N ≤ k + 2 * fuel → ∃ r, wifi_wait status (fuel + 1) k = some r := by
  induction fuel with
  | zero =>
    intro k hk
    have hc := hN k (by omega)
    simp only [wifi_wait, hc, ne_eq, not_true_eq_false, if_false]
    exact ⟨_, rfl⟩
  | succ fuel ih =>
    intro k hk
    by_cases hc : status k = wl_status_t.WL_CONNECTED
    · simp only [wifi_wait, hc, ne_eq, not_true_eq_false, if_false]
      exact ⟨_, rfl⟩
    · obtain ⟨r, hr⟩ := ih (k + 2) (by omega)
      obtain ⟨e2, p2⟩ := r
      rw [wifi_wait]
      simp only [hc, ne_eq, not_false_eq_true, if_true, hr]
      exact ⟨_, rfl⟩

theorem wifi_connect_progress (status : Nat → wl_status_t) (ip : String) (N : Nat)
    (hN : ∀ i, N ≤ i → status i = wl_status_t.WL_CONNECTED) (fuel k : Nat)
    (hf : N ≤ 2 * fuel) :
    ∃ r, wifi_connect status ip (fuel + 1) k = some r := by
  unfold wifi_connect
  by_cases hc : status k = wl_status_t.WL_CONNECTED
  · simp only [hc, if_true]
    exact ⟨_, rfl⟩
  · obtain ⟨r, hr⟩ := wifi_wait_progress status N hN fuel (k + 1) (by omega)
    obtain ⟨e2, p2⟩ := r
    simp only [hc, if_false, hr]
    exact ⟨_, rfl⟩

theorem wifi_wait_last_poll (status : Nat → wl_status_t) (fuel : Nat) :
    ∀ k effects next, wifi_wait status fuel k = some (effects, next) →
      k < next ∧ status (next - 1) = wl_status_t.WL_CONNECTED := by
  induction fuel with
  | zero => intro k effects next h; simp [wifi_wait] at h
  | succ fuel ih =>
    intro k effects next h
    by_cases hc : status k = wl_status_t.WL_CONNECTED
    · simp only [wifi_wait, hc, ne_eq, not_true_eq_false, if_false, Option.some.injEq,
        Prod.mk.injEq] at h
      rw [← h.2]
      exact ⟨by omega, by simpa using hc⟩
    · simp only [wifi_wait, hc, ne_eq, not_false_eq_true, if_true] at h
      cases hw : wifi_wait status fuel (k + 2) with
      | none => rw [hw] at h; simp at h
      | some r =>
        obtain ⟨e2, p2⟩ := r
        rw [hw] at h
        simp only [Option.some.injEq, Prod.mk.injEq] at h
        obtain ⟨h1, h2⟩ := ih (k + 2) e2 p2 hw
        rw [← h.2]
        exact ⟨by omega, h2⟩

/-- C8: when `WiFi.status()` is `WL_CONNECTED` at the call, `wifi_connect()`
returns at once with an empty trace (no `WiFi.begin`, no mode change, no
delay, no output) after that single status poll, for any fuel; a call that
returned did so on a poll that saw `WL_CONNECTED`; and a second call made
after a first one has returned, with the link still connected, adds nothing
to the trace of the first. -/
theorem C8_wifi_connect_idempotent (status : Nat → wl_status_t) (ip : String) :
    (∀ fuel k, status k = wl_status_t.WL_CONNECTED →
      wifi_connect status ip fuel k = some ([], k + 1)) ∧
    (∀ fuel k effects next, wifi_connect status ip fuel k = some (effects, next) →
      k < next ∧ status (next - 1) = wl_status_t.WL_CONNECTED) ∧
    (∀ fuel1 fuel2 k effects next, wifi_connect status ip fuel1 k = some (effects, next) →
      status next = wl_status_t.WL_CONNECTED →
      ∃ effects2, wifi_connect status ip fuel2 next = some (effects2, next + 1) ∧
        effects ++ effects2 = effects) := by
  have h1 : ∀ fuel k, status k = wl_status_t.WL_CONNECTED →
      wifi_connect status ip fuel k = some ([], k + 1) := by
    intro fuel k hc
    simp only [wifi_connect, hc, if_true]
  refine ⟨h1, ?_, ?_⟩
  · intro fuel k effects next h
    unfold wifi_connect at h
    by_cases hc : status k = wl_status_t.WL_CONNECTED
    · simp only [hc, if_true, Option.some.injEq, Prod.mk.injEq] at h
      rw [← h.2]
      exact ⟨by omega, by simpa using hc⟩
    · simp only [hc, if_false] at h
      cases hw : wifi_wait status fuel (k + 1) with
      | none => rw [hw] at h; simp at h
      | some r =>
        obtain ⟨e2, p2⟩ := r
        rw [hw] at h
        simp only [Option.some.injEq, Prod.mk.injEq] at h
        obtain ⟨h2, h3⟩ := wifi_wait_last_poll status fuel (k + 1) e2 p2 hw
        rw [← h.2]
        exact ⟨by omega, h3⟩
  · intro fuel1 fuel2 k effects next _ hc
    exact ⟨[], h1 fuel2 next hc, List.append_nil _⟩

/-- Witness for C8: a call made at status poll 7 of the sample link, which is
connected by then, has no effect even with no fuel. -/
theorem C8_wifi_connect_idempotent_witness :
    wifi_connect sampleStatus "192.168.1.20" 0 7 = some ([], 8) :=
  (C8_wifi_connect_idempotent sampleStatus "192.168.1.20").1 0 7 (by decide)

theorem setup_some (env : BootEnv) (fuel : Nat) (connect sync : List Effect) (k p : Nat)
    (hc : wifi_connect env.wifiStatus env.localIP fuel 0 = some (connect, k))
    (hs : setup_ntp env.clock fuel = some (sync, p)) :
    setup env fuel = some
      ([Effect.serial_begin 9600, Effect.serial_setTimeout 2000,
        Effect.pinMode_output STATUS_LED_PIN] ++ led true ++ [Effect.serial_println "Booting..."]
        ++ [] ++ connect ++ sync ++ [Effect.serial_println "Bootup complete"] ++ led false) := by
  simp only [setup, setupWith, WIFI_ENABLED, AHT_ENABLED, hc, hs, if_true, Option.map_some',
    bind, Option.bind, pure, Bool.false_eq_true, if_false]

theorem setup_inv (env : BootEnv) (fuel : Nat) (trace : List Effect)
    (h : setup env fuel = some trace) :
    ∃ connect sync k p,
      wifi_connect env.wifiStatus env.localIP fuel 0 = some (connect, k) ∧
      setup_ntp env.clock fuel = some (sync, p) := by
  cases hc : wifi_connect env.wifiStatus env.localIP fuel 0 with
  | none =>
    simp [setup, setupWith, WIFI_ENABLED, AHT_ENABLED, hc, bind, Option.bind] at h
  | some r =>
    cases hs : setup_ntp env.clock fuel with
    | none =>
      simp [setup, setupWith, WIFI_ENABLED, AHT_ENABLED, hc, hs, bind, Option.bind] at h
    | some q => exact ⟨r.1, q.1, r.2, q.2, rfl, rfl⟩

theorem ledWrites_logging (dbg : Bool) (w h : Nat) (s : SensorData) :
    ledWrites (if dbg then log_temperature w s ++ print_debug h else []) = [] := by
  unfold log_temperature print_debug
  cases dbg <;> by_cases hw : w = 0 <;> simp [ledWrites, hw]

theorem ledWrites_report (dbg : Bool) (env : TickEnv) (g : Globals) :
    ledWrites (report dbg env g) = [] := by
  unfold report
  cases dbg <;> simp [ledWrites]

theorem option_pair_eq {α β : Type} (x : Option (α × β)) (a : α) (b : β)
    (h1 : x.map Prod.fst = some a) (h2 : x.map Prod.snd = some b) : x = some (a, b) := by
  cases x with
  | none => simp at h1
  | some v =>
    simp only [Option.map_some', Option.some.injEq] at h1 h2
    rw [← h1, ← h2]

/-- C9: the trace of `setup()` switches the busy indicator on before the
connectivity and time-sync steps and off after both, and touches it nowhere
else; `setup()` does return when the link eventually stays connected and the
clock eventually reaches the floor.  In `loop()`, a tick that reports performs
`led(true)` immediately before the effects of `report()` and `led(false)`
immediately after them, with no other indicator write, and a tick that does
not report never writes the indicator. -/
theorem C9_busy_indicator_brackets_boot_and_report :
    (∀ (benv : BootEnv) (fuel : Nat) (trace : List Effect), setup benv fuel = some trace →
      ∃ connect sync k p,
        wifi_connect benv.wifiStatus benv.localIP fuel 0 = some (connect, k) ∧
        setup_ntp benv.clock fuel = some (sync, p) ∧
        trace = [Effect.serial_begin 9600, Effect.serial_setTimeout 2000,
            Effect.pinMode_output STATUS_LED_PIN] ++ led true
          ++ [Effect.serial_println "Booting..."] ++ connect ++ sync
          ++ [Effect.serial_println "Bootup complete"] ++ led false ∧
        ledWrites connect = [] ∧ ledWrites sync = [] ∧
        ledWrites trace = [PinLevel.LOW, PinLevel.HIGH]) ∧
    (∀ (benv : BootEnv) (N n : Nat),
      (∀ i, N ≤ i → benv.wifiStatus i = wl_status_t.WL_CONNECTED) →
      1500000000 ≤ benv.clock n →
      ∃ fuel trace, setup benv fuel = some trace) ∧
    (∀ (env : TickEnv) (g : Globals),
      0 ≤ g.sensor_buffer_count → g.sensor_buffer_count < g.sensor_buffer.length →
      ∃ g1 tr, loop env g = some (g1, tr) ∧
        (g.sensor_buffer_count + 1 = MAX_BUFFER_SIZE →
          tr = [Effect.serial_println "Send data"] ++ led true ++ report DEBUG env g1
              ++ led false
              ++ (log_temperature env.availableForWrite
                    (g1.sensor_buffer.getD g.sensor_buffer_count.toNat SensorData.zero)
                  ++ print_debug env.freeHeap)
              ++ [Effect.delay 5000] ∧
          invokesReport tr = true ∧
          ledWrites (report DEBUG env g1) = [] ∧
          ledWrites tr = [PinLevel.LOW, PinLevel.HIGH]) ∧
        (g.sensor_buffer_count + 1 ≠ MAX_BUFFER_SIZE →
          invokesReport tr = false ∧ ledWrites tr = [])) := by
  refine ⟨?_, ?_, ?_⟩
  · intro benv fuel trace h
    obtain ⟨connect, sync, k, p, hc, hs⟩ := setup_inv benv fuel trace h
    have ht := setup_some benv fuel connect sync k p hc hs
    rw [h] at ht
    have ht2 := Option.some.inj ht
    have l1 := ledWrites_wifi_connect _ _ _ _ _ _ hc
    have l2 := ledWrites_setup_ntp _ _ _ _ hs
    refine ⟨connect, sync, k, p, hc, hs, ?_, l1, l2, ?_⟩
    · rw [ht2]; simp only [List.append_nil]
    · rw [ht2]
      simp only [ledWrites_append, l1, l2, List.append_nil, List.nil_append]
      rfl
  · intro benv N n hN hn
    classical
    have hex : ∃ m, 1500000000 ≤ benv.clock m := ⟨n, hn⟩
    obtain ⟨r, hr⟩ := wifi_connect_progress benv.wifiStatus benv.localIP N hN
      (N + Nat.find hex) 0 (by omega)
    have hs := setup_ntp_returns benv.clock (Nat.find hex)
      (N + Nat.find hex + 1) (Nat.find_spec hex)
      (fun j hj => not_le.mp (Nat.find_min hex hj)) (by omega)
    exact ⟨N + Nat.find hex + 1, _, setup_some benv _ r.1 _ r.2 _ hr hs⟩
  · intro env g h0 h1
    have hfst := loopWith_fst AHT_ENABLED DEBUG env g h0 h1
    by_cases hf : g.sensor_buffer_count + 1 = MAX_BUFFER_SIZE
    · have hsnd := loopWith_snd_full AHT_ENABLED DEBUG env g h0 h1 hf
      refine ⟨_, _, option_pair_eq _ _ _ hfst hsnd, ?_, fun hne => absurd hf hne⟩
      intro _
      refine ⟨rfl, ?_, ledWrites_report _ _ _, ?_⟩
      · rw [invokesReport_iff]
        simp only [postedDocuments_append, postedDocuments_report]
        simp
      · simp only [ledWrites_append, ledWrites_report, ledWrites_logging]
        rfl
    · have hsnd := loopWith_snd_notFull AHT_ENABLED DEBUG env g h0 h1 hf
      refine ⟨_, _, option_pair_eq _ _ _ hfst hsnd, fun he => absurd he hf, ?_⟩
      intro _
      constructor
      · cases hi : invokesReport ((if DEBUG = true then
            log_temperature env.availableForWrite
              ((afterTick AHT_ENABLED env g).sensor_buffer.getD g.sensor_buffer_count.toNat
                SensorData.zero) ++ print_debug env.freeHeap else []) ++ [Effect.delay 5000])
        · rfl
        · rw [invokesReport_iff, postedDocuments_append, postedDocuments_logging] at hi
          exact absurd rfl hi
      · simp only [ledWrites_append, ledWrites_logging]
        rfl

/-- Witness for C9: `setup()` returns in the sample boot environment. -/
theorem C9_busy_indicator_brackets_boot_and_report_witness :
    ∃ fuel trace, setup sampleBoot fuel = some trace :=
  C9_busy_indicator_brackets_boot_and_report.2.1 sampleBoot 5 3
    (by intro i hi; simp only [sampleBoot, sampleStatus]; rw [if_neg (by omega)])
    (by decide)

end SubzeroProbe
